import Mathlib

/-!
Verification development for the MiroFish front-end client (fishi repository).

The development shallowly embeds the parts of the client that carry the
algorithmic content under scrutiny:

* the force-directed graph layout engine's edge preparation
  (`renderGraph` in the graph view component): dangling-edge filtering,
  self-loop merging and multi-edge curvature assignment;
* the simulation-run panel: `resetAllState`, `doStartSimulation`,
  `handleStopSimulation`, `fetchRunStatus`, `checkPlatformsCompleted`,
  `fetchRunStatusDetail` and its action dedup/ingest loop;
* the environment-preparation panel: `startPrepareSimulation`,
  `pollPrepareStatus`, the `watch(currentStage)` stage-to-phase mapping,
  `fetchProfilesRealtime`, `fetchConfigRealtime`, `loadPreparedData`;
* the bounded diagnostic logs (`addLog` in the step views, capacity 100,
  and in the run layout, capacity 200);
* the backward-navigation environment teardown
  (`checkAndStopRunningSimulation` / `forceStopSimulation`).

Modelling conventions:

* JavaScript numbers appearing in exact arithmetic claims (the curvature
  formula) are modelled by exact rationals (`ℚ`); integer-valued counters
  (rounds, counts, progress) by `Nat`.
* JavaScript string comparison (`<`, `>`, array `sort()`) is code-unit
  lexicographic; it is modelled by an explicit structural comparison on
  the character list of a `String`.
* Falsy-string defaulting (`x || 'd'`) is modelled by `jsOr` / `jsOrOpt`
  (absent values are `Option.none`, the empty string is falsy).
* `async` handlers suspend only at network requests; each handler is
  embedded as a pure state-transition function taking the responses the
  requests would deliver (`Except Unit _`, where `.error` models a thrown
  network/parse error).  Recurring timers are modelled by boolean fields;
  a poll event for a cleared timer is a no-op.
-/

namespace Fishi

/-! ## JavaScript modelling primitives -/

/-- JS `a || b` for strings: the empty string is falsy. -/
def jsOr (a b : String) : String := if a = "" then b else a

/-- JS `a || b` where `a` may be `undefined`/`null` (modelled `Option`). -/
def jsOrOpt (a : Option String) (b : String) : String :=
  match a with
  | some s => jsOr s b
  | none => b

/-- JS `a || b` for an optional numeric field whose fallback is a string
(`expectedTotal.value || '?'`): `0`, `null` and `undefined` are falsy. -/
def jsOrNatStr (a : Option Nat) (b : String) : String :=
  match a with
  | some n => if n = 0 then b else toString n
  | none => b

/-- Structural code-unit lexicographic comparison on character lists,
modelling the JS `<` comparison of strings. -/
def jsLtChars : List Char → List Char → Bool
  | [], [] => false
  | [], _ :: _ => true
  | _ :: _, [] => false
  | a :: as, b :: bs =>
    if a.toNat < b.toNat then true
    else if b.toNat < a.toNat then false
    else jsLtChars as bs

/-- JS `a < b` on strings. -/
def jsStrLt (a b : String) : Bool := jsLtChars a.data b.data

/-! ## Graph layout engine: data model

`renderGraph` (graph view component) receives the snapshot's raw nodes and
edges.  Only the fields the edge-preparation code reads are modelled. -/

/-- A snapshot node (`{uuid, name, ...}`). -/
structure GNode where
  uuid : String
  name : String
deriving DecidableEq, Repr

/-- A snapshot edge record. -/
structure GEdge where
  uuid : String
  source_node_uuid : String
  target_node_uuid : String
  name : String
  fact_type : String
deriving DecidableEq, Repr

/-- A collected self-loop record: `{...e, source_name, target_name}`
pushed into `selfLoopEdges[uuid]`. -/
structure SLRec where
  edge : GEdge
  source_name : Option String
  target_name : Option String
deriving DecidableEq, Repr

/-- The `rawData` payload attached to a rendered edge. -/
inductive RRaw where
  | selfGroup (source_name target_name : String) (selfLoopCount : Nat)
      (selfLoopEdges : List SLRec)
  | pairData (edge : GEdge) (source_name target_name : Option String)
deriving DecidableEq, Repr

/-- A rendered edge as pushed into the `edges` array by `renderGraph`.
Self-loop group edges carry no `pairIndex`/`pairTotal` field. -/
structure REdge where
  source : String
  target : String
  type : String
  name : String
  curvature : ℚ
  isSelfLoop : Bool
  pairIndex : Option Nat
  pairTotal : Option Nat
  rawData : RRaw
deriving DecidableEq, Repr

/-! ## Graph layout engine: edge preparation (`renderGraph`) -/

/-- `[a, b].sort().join('_')`: the unordered-pair grouping key. -/
def pairKey (a b : String) : String :=
  if jsStrLt b a then b ++ "_" ++ a else a ++ "_" ++ b

/-- Grouping key of an edge record. -/
def pairKeyOf (e : GEdge) : String := pairKey e.source_node_uuid e.target_node_uuid

/-- `edgePairCount[key]`-style count of non-self-loop edges of a key in a list. -/
def countKey (key : String) (l : List GEdge) : Nat :=
  l.countP (fun e =>
    decide (e.source_node_uuid ≠ e.target_node_uuid ∧ pairKeyOf e = key))

/-- `tempEdges`: drop edges referencing uuids absent from the node list. -/
def tempEdgesOf (nodes : List GNode) (edgesData : List GEdge) : List GEdge :=
  let nodeIds := nodes.map (·.uuid)
  edgesData.filter (fun e =>
    nodeIds.contains e.source_node_uuid && nodeIds.contains e.target_node_uuid)

/-- `nodeMap[u]?.name`. -/
def findNodeName (nodes : List GNode) (u : String) : Option String :=
  (nodes.find? (fun n => n.uuid == u)).map (·.name)

/-- `selfLoopEdges[u]`: all self-loop records of node `u`, in arrival order,
decorated with the endpoint names (pass 1 of `renderGraph`). -/
def selfLoopRecordsOf (nodes : List GNode) (edgesData : List GEdge) (u : String) :
    List SLRec :=
  ((tempEdgesOf nodes edgesData).filter (fun e =>
      decide (e.source_node_uuid = e.target_node_uuid ∧ e.source_node_uuid = u))).map
    (fun e => ⟨e, findNodeName nodes e.source_node_uuid,
      findNodeName nodes e.target_node_uuid⟩)

/-- The rendered pair (non-self-loop) edge built by `renderGraph` for a record
with within-group running index `currentIndex` out of `totalCount`:

    const curvatureRange = Math.min(1.2, 0.6 + totalCount * 0.15)
    curvature = ((currentIndex / (totalCount - 1)) - 0.5) * curvatureRange * 2
    if (isReversed) curvature = -curvature
-/
def pairREdge (findName : String → Option String) (e : GEdge)
    (currentIndex totalCount : Nat) : REdge :=
  let isReversed := jsStrLt e.target_node_uuid e.source_node_uuid
  let curvature : ℚ :=
    if 1 < totalCount then
      let curvatureRange : ℚ := min (12/10) (6/10 + (totalCount : ℚ) * (15/100))
      let c := ((currentIndex : ℚ) / ((totalCount : ℚ) - 1) - 5/10) * curvatureRange * 2
      if isReversed then -c else c
    else 0
  { source := e.source_node_uuid,
    target := e.target_node_uuid,
    type := jsOr e.fact_type (jsOr e.name "RELATED"),
    name := jsOr e.name (jsOr e.fact_type "RELATED"),
    curvature := curvature,
    isSelfLoop := false,
    pairIndex := some currentIndex,
    pairTotal := some totalCount,
    rawData := .pairData e (findName e.source_node_uuid) (findName e.target_node_uuid) }

/-- The single merged self-relations edge pushed for node `u`. -/
def selfREdge (findName : String → Option String) (loops : String → List SLRec)
    (u : String) : REdge :=
  let allSelfLoops := loops u
  let nodeName := jsOrOpt (findName u) "Unknown"
  { source := u,
    target := u,
    type := "SELF_LOOP",
    name := "Self Relations (" ++ toString allSelfLoops.length ++ ")",
    curvature := 0,
    isSelfLoop := true,
    pairIndex := none,
    pairTotal := none,
    rawData := .selfGroup nodeName nodeName allSelfLoops.length allSelfLoops }

/-- Pass 2 of `renderGraph`: walk `tempEdges` carrying the mutable
`edgePairIndex` map (`idx`) and the `processedSelfLoopNodes` set
(`processed`), emitting rendered edges. -/
def renderEdgesAux (cnt : String → Nat) (loops : String → List SLRec)
    (findName : String → Option String) :
    (String → Nat) → (String → Bool) → List GEdge → List REdge
  | _, _, [] => []
  | idx, processed, e :: rest =>
    if e.source_node_uuid = e.target_node_uuid then
      if processed e.source_node_uuid then
        renderEdgesAux cnt loops findName idx processed rest
      else
        selfREdge findName loops e.source_node_uuid ::
          renderEdgesAux cnt loops findName idx
            (fun u => if u = e.source_node_uuid then true else processed u) rest
    else
      pairREdge findName e (idx (pairKeyOf e)) (cnt (pairKeyOf e)) ::
        renderEdgesAux cnt loops findName
          (fun k => if k = pairKeyOf e then idx (pairKeyOf e) + 1 else idx k)
          processed rest

/-- The full edge list produced by `renderGraph` for a snapshot. -/
def renderGraphEdges (nodes : List GNode) (edgesData : List GEdge) : List REdge :=
  let temp := tempEdgesOf nodes edgesData
  renderEdgesAux (fun key => countKey key temp)
    (selfLoopRecordsOf nodes edgesData) (findNodeName nodes)
    (fun _ => 0) (fun _ => false) temp

/-! ## Graph layout engine: specification-side definitions (claim C1)

These definitions follow the specification's words (group = unordered node
pair, index = arrival order within the group) and are compared against the
code-derived `renderGraphEdges`. -/

/-- Specification wording: two records join the same unordered node pair. -/
def sameUnorderedPair (e' e : GEdge) : Prop :=
  (e'.source_node_uuid = e.source_node_uuid ∧ e'.target_node_uuid = e.target_node_uuid) ∨
  (e'.source_node_uuid = e.target_node_uuid ∧ e'.target_node_uuid = e.source_node_uuid)

instance (e' e : GEdge) : Decidable (sameUnorderedPair e' e) := by
  unfold sameUnorderedPair; infer_instance

/-- Number of non-self-loop records of `l` joining the same unordered node
pair as `e` (the claim's `k`; on a proper prefix of the snapshot, the
claim's arrival-order index `i`). -/
def specGroupSize (l : List GEdge) (e : GEdge) : Nat :=
  l.countP (fun e' =>
    decide (e'.source_node_uuid ≠ e'.target_node_uuid ∧ sameUnorderedPair e' e))

/-- Amended claim formula: curvature
`((i/(k−1)) − 0.5) × min(1.2, 0.6 + 0.15·k) × 2`, negated exactly when the
record's source uuid is lexicographically greater than its target uuid;
`k = 1` gives curvature 0. -/
def claimCurvature (i k : Nat) (src tgt : String) : ℚ :=
  if k = 1 then 0
  else (if jsStrLt tgt src then -1 else 1) *
    (((i : ℚ) / ((k : ℚ) - 1) - 5/10) * min (12/10) (6/10 + (k : ℚ) * (15/100)) * 2)

/-- Proof-side recursion mirroring pass 2's pair-edge output, with the
mutable `edgePairIndex` map replaced by counting over the processed
prefix `pre`. -/
def pairSpecList (findName : String → Option String) (cnt : String → Nat) :
    List GEdge → List GEdge → List REdge
  | _, [] => []
  | pre, e :: rest =>
    if e.source_node_uuid = e.target_node_uuid then
      pairSpecList findName cnt (pre ++ [e]) rest
    else
      pairREdge findName e (countKey (pairKeyOf e) pre) (cnt (pairKeyOf e)) ::
        pairSpecList findName cnt (pre ++ [e]) rest

/-- A string free of the `'_'` separator used by the grouping key
(server uuids contain no underscore). -/
def noUnderscore (s : String) : Prop := '_' ∉ s.data

instance (s : String) : Decidable (noUnderscore s) := by
  unfold noUnderscore; infer_instance

/-! ## Common response envelope

All backend calls return `{success: boolean, data?: object, error?: string}`. -/

/-- Response envelope `{success, data?, error?}`. -/
structure Envelope (α : Type) where
  success : Bool
  data : Option α
  error : Option String
deriving DecidableEq, Repr

/-- Interpolation of a possibly-absent string field into a template
literal: JS renders `undefined` as the string `"undefined"`. -/
def jsOptStr (o : Option String) : String :=
  match o with
  | some s => s
  | none => "undefined"

/-- Truthiness of an optional string (`undefined` and `''` are falsy). -/
def isTruthyOpt (o : Option String) : Bool :=
  match o with
  | some s => s ≠ ""
  | none => false

/-! ## Reconciliation log: action ingestion (`fetchRunStatusDetail`) -/

/-- One streamed action record (fields read by the ingest loop). -/
structure ActionRec where
  id : Option String
  timestamp : String
  platform : String
  agent_id : Nat
  action_type : String
  content : Option String
deriving DecidableEq, Repr

/-- The composite fallback dedup key
`` `${timestamp}-${platform}-${agent_id}-${action_type}` ``. -/
def compositeKey (a : ActionRec) : String :=
  a.timestamp ++ "-" ++ a.platform ++ "-" ++ toString a.agent_id ++ "-" ++ a.action_type

/-- `action.id || composite`: the explicit id wins unless falsy (absent or
empty). -/
def actionKey (a : ActionRec) : String :=
  match a.id with
  | some s => if s = "" then compositeKey a else s
  | none => compositeKey a

/-- The ingest loop: for each record compute its key; if unseen, record the
key and append `{...action, _uniqueId}` to the ordered action log.  State is
`(actionIds, allActions)`. -/
def ingestActions :
    List String × List (ActionRec × String) → List ActionRec →
      List String × List (ActionRec × String)
  | st, [] => st
  | (ids, acts), a :: rest =>
    let k := actionKey a
    if k ∈ ids then ingestActions (ids, acts) rest
    else ingestActions (k :: ids, acts ++ [(a, k)]) rest

/-- Repeated ingestion of the same snapshot. -/
def iterIngest (st : List String × List (ActionRec × String))
    (records : List ActionRec) : Nat → List String × List (ActionRec × String)
  | 0 => st
  | n + 1 => ingestActions (iterIngest st records n) records

/-! ## Simulation-run panel (part_003, first component)

State and handlers of the run view: `phase` (0 not started, 1 running,
2 completed), the run-status/run-detail pollers, `resetAllState`,
`doStartSimulation`, `handleStopSimulation`. -/

/-- `GET /simulation/{id}/run-status` payload. -/
structure RunStatusData where
  twitter_current_round : Nat
  reddit_current_round : Nat
  total_rounds : Nat
  twitter_actions_count : Nat
  reddit_actions_count : Nat
  twitter_simulated_hours : Option Nat
  reddit_simulated_hours : Option Nat
  twitter_completed : Bool
  reddit_completed : Bool
  runner_status : Option String
deriving DecidableEq, Repr

/-- `POST /simulation/start` payload. -/
structure StartData where
  process_pid : Option Nat
  force_restarted : Bool
deriving DecidableEq, Repr

/-- `GET /simulation/{id}/run-status/detail` payload. -/
structure DetailData where
  all_actions : Option (List ActionRec)
deriving DecidableEq, Repr

/-- `checkPlatformsCompleted`: a platform is finished when its completed
flag is set, or its current round is positive and has reached the total;
the run is complete only when both platforms are finished. -/
def checkPlatformsCompleted (data : RunStatusData) : Bool :=
  let twitterCompleted := data.twitter_completed
  let redditCompleted := data.reddit_completed
  let twitterFinished := twitterCompleted ||
    (decide (0 < data.twitter_current_round) &&
      decide (data.total_rounds ≤ data.twitter_current_round))
  let redditFinished := redditCompleted ||
    (decide (0 < data.reddit_current_round) &&
      decide (data.total_rounds ≤ data.reddit_current_round))
  twitterFinished && redditFinished

/-- Reactive state of the run panel.  Timer handles are modelled by
booleans; `log` records the `add-log` emissions and `statusEmits` the
`update-status` emissions. -/
structure RunState where
  isGeneratingReport : Bool
  phase : Nat
  isStarting : Bool
  isStopping : Bool
  startError : Option String
  runStatus : Option (StartData ⊕ RunStatusData)
  allActions : List (ActionRec × String)
  actionIds : List String
  prevTwitterRound : Nat
  prevRedditRound : Nat
  statusTimer : Bool
  detailTimer : Bool
  log : List String
  statusEmits : List String
deriving DecidableEq, Repr

/-- Initial reactive state of the run panel. -/
def runInit : RunState :=
  { isGeneratingReport := false, phase := 0, isStarting := false,
    isStopping := false, startError := none, runStatus := none,
    allActions := [], actionIds := [], prevTwitterRound := 0,
    prevRedditRound := 0, statusTimer := false, detailTimer := false,
    log := [], statusEmits := [] }

/-- Props of the run panel used by the handlers. -/
structure RunCtx where
  simulationId : Option String
  maxRounds : Option Nat
deriving DecidableEq, Repr

/-- `resetAllState`: zero phase, run status, the action log, the dedup set
and the round watermarks, then stop any existing polling. -/
def resetAllState (s : RunState) : RunState :=
  { s with
      phase := 0
      runStatus := none
      allActions := []
      actionIds := []
      prevTwitterRound := 0
      prevRedditRound := 0
      startError := none
      isStarting := false
      isStopping := false
      statusTimer := false
      detailTimer := false
      }

/-- `doStartSimulation`, given the response (or thrown error) of
`POST /simulation/start`. -/
def doStartSimulationStep (ctx : RunCtx) (s : RunState)
    (r : Except String (Envelope StartData)) : RunState :=
  match ctx.simulationId with
  | none => { s with log := s.log ++ ["Error: Missing simulationId"] }
  | some _ =>
    let s := resetAllState s
    let s := { s with
                 isStarting := true
                 startError := none
                 log := s.log ++ ["Starting dual-platform parallel simulation..."]
                 statusEmits := s.statusEmits ++ ["processing"]
                 }
    let s :=
      match ctx.maxRounds with
      | some mr =>
        if mr ≠ 0 then
          { s with
              log := s.log ++ ["Settings maximum Simulation rounds count: " ++ toString mr]
              }
        else s
      | none => s
    let s := { s with log := s.log ++ ["Dynamic graph update mode enabled"] }
    match r with
    | .error msg =>
      { s with
          startError := some msg
          log := s.log ++ ["✗ Start exception: " ++ msg]
          statusEmits := s.statusEmits ++ ["error"]
          isStarting := false
          }
    | .ok res =>
      if res.success then
        match res.data with
        | some d =>
          let s :=
            if d.force_restarted then
              { s with
                  log := s.log ++ ["✓ Cleared old simulation logs, restarting simulation"]
                  }
            else s
          let s := { s with
                       log := s.log ++ ["✓ Simulation engine started successfully", " ├─ PID: " ++ jsOrNatStr d.process_pid "-"]
                       }
          { s with
              phase := 1
              runStatus := some (.inl d)
              statusTimer := true
              detailTimer := true
              isStarting := false
              }
        | none =>
          { s with
              startError := some (jsOrOpt res.error "Start failed")
              log := s.log ++ ["✗ Start failed: " ++ jsOrOpt res.error "Unknown error"]
              statusEmits := s.statusEmits ++ ["error"]
              isStarting := false
              }
      else
        { s with
            startError := some (jsOrOpt res.error "Start failed")
            log := s.log ++ ["✗ Start failed: " ++ jsOrOpt res.error "Unknown error"]
            statusEmits := s.statusEmits ++ ["error"]
            isStarting := false
            }

/-- `handleStopSimulation`, given the response of `POST /simulation/stop`. -/
def handleStopSimulationStep (ctx : RunCtx) (s : RunState)
    (r : Except String (Envelope Unit)) : RunState :=
  match ctx.simulationId with
  | none => s
  | some _ =>
    let s := { s with isStopping := true, log := s.log ++ ["Stopping Simulation..."] }
    match r with
    | .error msg =>
      { s with log := s.log ++ ["Stop exception: " ++ msg], isStopping := false }
    | .ok res =>
      if res.success then
        { s with
            log := s.log ++ ["✓ Simulation stopped"]
            phase := 2
            statusTimer := false
            detailTimer := false
            statusEmits := s.statusEmits ++ ["completed"]
            isStopping := false
            }
      else
        { s with
            log := s.log ++ ["Stop failed: " ++ jsOrOpt res.error "Unknown error"]
            isStopping := false
            }

/-- `fetchRunStatus`: the 2-second run-status poll callback. On a thrown
request error only `console.warn` runs and the state is untouched. -/
def fetchRunStatusStep (ctx : RunCtx) (s : RunState)
    (r : Except String (Envelope RunStatusData)) : RunState :=
  match ctx.simulationId with
  | none => s
  | some _ =>
    match r with
    | .error _ => s
    | .ok res =>
      if res.success then
        match res.data with
        | some data =>
          let s := { s with runStatus := some (.inr data) }
          let s :=
            if s.prevTwitterRound < data.twitter_current_round then
              { s with
                  log := s.log ++ ["[Plaza] R" ++ toString data.twitter_current_round ++ "/" ++ toString data.total_rounds ++ " | T:" ++ toString (data.twitter_simulated_hours.getD 0) ++ "h | A:" ++ toString data.twitter_actions_count]
                  prevTwitterRound := data.twitter_current_round
                  }
            else s
          let s :=
            if s.prevRedditRound < data.reddit_current_round then
              { s with
                  log := s.log ++ ["[Community] R" ++ toString data.reddit_current_round ++ "/" ++ toString data.total_rounds ++ " | T:" ++ toString (data.reddit_simulated_hours.getD 0) ++ "h | A:" ++ toString data.reddit_actions_count]
                  prevRedditRound := data.reddit_current_round
                  }
            else s
          let isCompleted :=
            data.runner_status == some "completed" ||
              data.runner_status == some "stopped"
          let platformsCompleted := checkPlatformsCompleted data
          if isCompleted || platformsCompleted then
            let s :=
              if platformsCompleted && !isCompleted then
                { s with
                    log := s.log ++ ["✓ Detected all platforms simulation completed"]
                    }
              else s
            { s with
                log := s.log ++ ["✓ Simulation Completed"]
                phase := 2
                statusTimer := false
                detailTimer := false
                statusEmits := s.statusEmits ++ ["completed"]
                }
          else s
        | none => s
      else s

/-- `fetchRunStatusDetail`: the 3-second run-detail poll callback, feeding
the deduplicated action log. -/
def fetchRunStatusDetailStep (ctx : RunCtx) (s : RunState)
    (r : Except String (Envelope DetailData)) : RunState :=
  match ctx.simulationId with
  | none => s
  | some _ =>
    match r with
    | .error _ => s
    | .ok res =>
      if res.success then
        match res.data with
        | some d =>
          let st := ingestActions (s.actionIds, s.allActions) (d.all_actions.getD [])
          { s with actionIds := st.1, allActions := st.2 }
        | none => s
      else s

/-- Events of the run panel: each user action or poll tick together with
the response(s) the network would deliver. -/
inductive RunEvent where
  | startSim (r : Except String (Envelope StartData))
  | stopSim (r : Except String (Envelope Unit))
  | statusPoll (r : Except String (Envelope RunStatusData))
  | detailPoll (r : Except String (Envelope DetailData))
deriving Repr

/-- One cooperative event-loop step of the run panel; a poll event whose
timer has been cleared does not fire. -/
def runStep (ctx : RunCtx) (s : RunState) : RunEvent → RunState
  | .startSim r => doStartSimulationStep ctx s r
  | .stopSim r => handleStopSimulationStep ctx s r
  | .statusPoll r => if s.statusTimer then fetchRunStatusStep ctx s r else s
  | .detailPoll r => if s.detailTimer then fetchRunStatusDetailStep ctx s r else s

/-- All states observed along a run of the panel. -/
def runTrace (ctx : RunCtx) (evs : List RunEvent) : List RunState :=
  evs.scanl (runStep ctx) runInit

/-- Whether an event is the explicit restart (`doStartSimulation` begins by
calling `resetAllState`). -/
def isRestartEvent : RunEvent → Bool
  | .startSim _ => true
  | _ => false

/-! ## Environment-preparation panel (part_003, second component)

State and handlers of the Step-2 view: `phase` (0 initializing,
1 generating profiles, 2 generating configuration, 4 ready), the prepare
status poller, the realtime profile poller, the realtime config poller,
the `watch(currentStage)` stage-to-phase mapping and the terminal-state
reload `loadPreparedData`. -/

/-- `progress_detail` of `POST /simulation/prepare/status`. -/
structure PrepDetail where
  stage_index : Nat
  total_stages : Nat
  current_stage_name : Option String
  current_stage : Option String
  item_description : Option String
  current_item : Nat
  total_items : Nat
deriving DecidableEq, Repr

/-- `POST /simulation/prepare/status` payload. -/
structure PrepData where
  progress : Option Nat
  message : Option String
  progress_detail : Option PrepDetail
  status : Option String
  error : Option String
  already_prepared : Bool
deriving DecidableEq, Repr

/-- An agent profile (fields read by the panel). -/
structure Profile where
  name : Option String
  username : Option String
  profession : Option String
  entity_type : Option String
deriving DecidableEq, Repr

/-- `GET /simulation/{id}/profiles/realtime` payload. -/
structure ProfData where
  profiles : Option (List Profile)
  total_expected : Option Nat
deriving DecidableEq, Repr

/-- `config.time_config`. -/
structure TimeConfig where
  total_simulation_hours : Nat
  minutes_per_round : Nat
deriving DecidableEq, Repr

/-- `config.event_config`. -/
structure EventConfig where
  narrative_direction : Option String
deriving DecidableEq, Repr

/-- The generated simulation config (fields read by the panel). -/
structure SimConfig where
  time_config : Option TimeConfig
  event_config : Option EventConfig
deriving DecidableEq, Repr

/-- `summary` of `GET /simulation/{id}/config/realtime`. -/
structure ConfSummary where
  total_agents : Nat
  simulation_hours : Nat
  initial_posts_count : Nat
  hot_topics_count : Nat
  has_twitter_config : Bool
  has_reddit_config : Bool
deriving DecidableEq, Repr

/-- `GET /simulation/{id}/config/realtime` payload. -/
structure ConfData where
  generation_stage : Option String
  config_generated : Bool
  config : Option SimConfig
  summary : Option ConfSummary
deriving DecidableEq, Repr

/-- `POST /simulation/prepare` payload. -/
structure PrepStartData where
  already_prepared : Bool
  task_id : Option String
  expected_entities_count : Option Nat
  entity_types : List String
deriving DecidableEq, Repr

/-- Reactive state of the preparation panel.  `started` models that
`onMounted` fires `startPrepareSimulation` exactly once. -/
structure PrepState where
  started : Bool
  phase : Nat
  taskId : Option String
  prepareProgress : Nat
  currentStage : String
  progressMessage : String
  lastLoggedMessage : String
  lastLoggedProfileCount : Nat
  lastLoggedConfigStage : String
  profiles : List Profile
  entityTypes : List String
  expectedTotal : Option Nat
  simulationConfig : Option SimConfig
  pollTimer : Bool
  profilesTimer : Bool
  configTimer : Bool
  log : List String
  statusEmits : List String
deriving DecidableEq, Repr

/-- Initial reactive state of the preparation panel. -/
def prepInit : PrepState :=
  { started := false
    phase := 0
    taskId := none
    prepareProgress := 0
    currentStage := ""
    progressMessage := ""
    lastLoggedMessage := ""
    lastLoggedProfileCount := 0
    lastLoggedConfigStage := ""
    profiles := []
    entityTypes := []
    expectedTotal := none
    simulationConfig := none
    pollTimer := false
    profilesTimer := false
    configTimer := false
    log := []
    statusEmits := [] }

/-- Props of the preparation panel used by the handlers. -/
structure PrepCtx where
  simulationId : Option String
deriving DecidableEq, Repr

/-- The `watch(currentStage)` body: map the newly observed stage string to
a phase, starting config polling on entering the config stage. -/
def applyStageWatch (newStage : String) (s : PrepState) : PrepState :=
  if newStage = "GeneratingAgentProfile" ∨ newStage = "generating_profiles" then
    { s with phase := 1 }
  else if newStage = "GeneratingSimulationconfiguration" ∨
      newStage = "generating_config" then
    let s := { s with phase := 2 }
    if !s.configTimer then
      { s with
        configTimer := true
        log := s.log ++ ["StartGenerate Dual-Platform Simulation configuration..."] }
    else s
  else if newStage = "准备Simulation脚本" ∨ newStage = "copying_scripts" then
    { s with phase := 2 }
  else s

/-- JS `\s` whitespace class (ASCII part; the stage strings the backend
emits contain no exotic whitespace). -/
def isJsWhitespace (c : Char) : Bool :=
  c = ' ' || c = '\t' || c = '\n' || c = '\r' || c.val = 11 || c.val = 12

/-- One attempt of the stage-extraction pattern
`/\[(\d+)\/(\d+)\]\s*([^:]+)/` anchored at the head of the list, returning
the third capture. -/
def matchStageAt (l : List Char) : Option String :=
  match l with
  | '[' :: rest =>
    let ds1 := rest.takeWhile Char.isDigit
    let r1 := rest.dropWhile Char.isDigit
    if ds1.isEmpty then none
    else
      match r1 with
      | '/' :: r2 =>
        let ds2 := r2.takeWhile Char.isDigit
        let r3 := r2.dropWhile Char.isDigit
        if ds2.isEmpty then none
        else
          match r3 with
          | ']' :: r4 =>
            let ws := r4.takeWhile isJsWhitespace
            let r5 := r4.dropWhile isJsWhitespace
            let cap := r5.takeWhile (fun c => c ≠ ':')
            if !cap.isEmpty then some (String.mk cap)
            else
              match ws.getLast? with
              | some c => some (String.mk [c])
              | none => none
          | _ => none
      | _ => none
  | _ => none

/-- Leftmost match of the stage-extraction pattern. -/
def searchStage : List Char → Option String
  | [] => none
  | c :: rest =>
    match matchStageAt (c :: rest) with
    | some st => some st
    | none => searchStage rest

/-- `data.message.match(/\[(\d+)\/(\d+)\]\s*([^:]+)/)` followed by
`match[3].trim()`. -/
def jsMatchStage (msg : String) : Option String :=
  (searchStage msg.data).map String.trim

/-- `new Set(...)` insertion-ordered deduplication followed by
`Array.from`. -/
def jsSetFrom (l : List String) : List String :=
  l.foldl (fun acc t => if t ∈ acc then acc else acc ++ [t]) []

/-- `fetchProfilesRealtime`: the 3-second realtime profile poll callback.
Replaces the profile list wholesale and logs a growth line keyed on the
`lastLoggedProfileCount` watermark. -/
def fetchProfilesRealtimeStep (ctx : PrepCtx) (s : PrepState)
    (r : Except String (Envelope ProfData)) : PrepState :=
  match ctx.simulationId with
  | none => s
  | some _ =>
    match r with
    | .error _ => s
    | .ok res =>
      if res.success then
        match res.data with
        | some data =>
          let newProfiles := data.profiles.getD []
          let s := { s with
            profiles := newProfiles
            expectedTotal := data.total_expected }
          let s := { s with
            entityTypes := jsSetFrom (newProfiles.filterMap (fun p =>
              if isTruthyOpt p.entity_type then p.entity_type else none)) }
          let currentCount := newProfiles.length
          if 0 < currentCount ∧ currentCount ≠ s.lastLoggedProfileCount then
            let s := { s with lastLoggedProfileCount := currentCount }
            let total := jsOrNatStr s.expectedTotal "?"
            let latest := newProfiles[currentCount - 1]?
            let profileName := jsOrOpt (latest.bind (·.name))
              (jsOrOpt (latest.bind (·.username)) ("Agent_" ++ toString currentCount))
            let s :=
              if currentCount = 1 then
                { s with log := s.log ++ ["StartGeneratingAgentProfile..."] }
              else s
            let s := { s with log := s.log ++
              ["→ AgentProfile " ++ toString currentCount ++ "/" ++ total ++ ": " ++
                profileName ++ " (" ++
                jsOrOpt (latest.bind (·.profession)) "Unknown Profession" ++ ")"] }
            match s.expectedTotal with
            | some exp =>
              if exp ≠ 0 ∧ exp ≤ currentCount then
                { s with log := s.log ++
                  ["✓ All " ++ toString currentCount ++
                    " Agent Profile Generation complete"] }
              else s
            | none => s
          else s
        | none => s
      else s

/-- `fetchConfigRealtime`: the 2-second realtime config poll callback. -/
def fetchConfigRealtimeStep (ctx : PrepCtx) (s : PrepState)
    (r : Except String (Envelope ConfData)) : PrepState :=
  match ctx.simulationId with
  | none => s
  | some _ =>
    match r with
    | .error _ => s
    | .ok res =>
      if res.success then
        match res.data with
        | some data =>
          let s :=
            match data.generation_stage with
            | some gs =>
              if gs ≠ "" ∧ gs ≠ s.lastLoggedConfigStage then
                let s := { s with lastLoggedConfigStage := gs }
                if gs = "generating_profiles" then
                  { s with log := s.log ++ ["GeneratingAgentProfileconfiguration..."] }
                else if gs = "generating_config" then
                  { s with log := s.log ++
                    ["In progress调useLLMGeneratingSimulationconfigurationparameters..."] }
                else s
              else s
            | none => s
          if data.config_generated then
            match data.config with
            | some c =>
              let s := { s with
                simulationConfig := some c
                log := s.log ++ ["✓ SimulationconfigurationGeneratingCompleted"] }
              let s :=
                match data.summary with
                | some sm => { s with log := s.log ++
                    ["  ├─ Agent count: " ++ toString sm.total_agents ++ "units",
                     "  ├─ Simulation Duration: " ++ toString sm.simulation_hours ++ "Hours",
                     "  ├─ Initial posts: " ++ toString sm.initial_posts_count ++ "items",
                     "  ├─ 热点Topic: " ++ toString sm.hot_topics_count ++ "units",
                     "  └─ Platform configuration: Twitter " ++
                       (if sm.has_twitter_config then "✓" else "✗") ++ ", Reddit " ++
                       (if sm.has_reddit_config then "✓" else "✗")] }
                | none => s
              let s :=
                match c.time_config with
                | some tc => { s with log := s.log ++
                    ["Time configuration: " ++ toString tc.minutes_per_round ++
                      "minutes, total" ++
                      toString (tc.total_simulation_hours * 60 / tc.minutes_per_round) ++
                      "rounds"] }
                | none => s
              let s :=
                match c.event_config with
                | some ec =>
                  match ec.narrative_direction with
                  | some nd =>
                    if nd ≠ "" then
                      { s with log := s.log ++
                        ["NarrativeDirection: " ++
                          (if 50 < nd.length then nd.take 50 ++ "..." else nd)] }
                    else s
                  | none => s
                | none => s
              { s with
                configTimer := false
                phase := 4
                log := s.log ++ ["✓ Environment setup complete, can start simulation"]
                statusEmits := s.statusEmits ++ ["completed"] }
            | none => s
          else s
        | none => s
      else s

/-- `loadPreparedData`: reload terminal state (enters the loading state
`phase = 2`, refreshes profiles once, then fetches the generated config). -/
def loadPreparedDataStep (ctx : PrepCtx) (s : PrepState)
    (profO : Except String (Envelope ProfData))
    (confO : Except String (Envelope ConfData)) : PrepState :=
  let s := { s with
    phase := 2
    log := s.log ++ ["Loading existing configuration data..."] }
  let s := fetchProfilesRealtimeStep ctx s profO
  let s := { s with log := s.log ++
    ["Loaded " ++ toString s.profiles.length ++ " Agent profiles"] }
  match confO with
  | .error msg =>
    { s with
      log := s.log ++ ["LoadingconfigurationFailed: " ++ msg]
      statusEmits := s.statusEmits ++ ["error"] }
  | .ok res =>
    if res.success then
      match res.data with
      | some data =>
        if data.config_generated ∧ data.config.isSome then
          match data.config with
          | some c =>
            let s := { s with
              simulationConfig := some c
              log := s.log ++ ["✓ Simulation configuration loaded successfully"] }
            let s :=
              match data.summary with
              | some sm => { s with log := s.log ++
                  ["  ├─ Agent count: " ++ toString sm.total_agents ++ "units",
                   "  ├─ Simulation Duration: " ++ toString sm.simulation_hours ++ "Hours",
                   "  └─ Initial posts: " ++ toString sm.initial_posts_count ++ "items"] }
              | none => s
            { s with
              log := s.log ++ ["✓ Environment setup complete, can start simulation"]
              phase := 4
              statusEmits := s.statusEmits ++ ["completed"] }
          | none => s
        else
          { s with
            log := s.log ++ ["configurationGenerating，Startrounds询Wait..."]
            configTimer := true }
      | none => s
    else s

/-- The progress/stage/log section of `pollPrepareStatus`: update the
progress fields, extract `currentStage` from `progress_detail` or from the
message pattern, and emit the deduplicated detail log line. -/
def prepApplyDetail (s : PrepState) (data : PrepData) : PrepState :=
  let s := { s with
    prepareProgress := data.progress.getD 0
    progressMessage := jsOrOpt data.message "" }
  match data.progress_detail with
  | some detail =>
    let s := { s with currentStage := jsOrOpt detail.current_stage_name "" }
    let logKey := jsOptStr detail.current_stage ++ "-" ++
      toString detail.current_item ++ "-" ++ toString detail.total_items
    if logKey ≠ s.lastLoggedMessage ∧ isTruthyOpt detail.item_description then
      let stageInfo := "[" ++ toString detail.stage_index ++ "/" ++
        toString detail.total_stages ++ "]"
      let line :=
        if 0 < detail.total_items then
          stageInfo ++ " " ++ jsOptStr detail.current_stage_name ++ ": " ++
            toString detail.current_item ++ "/" ++
            toString detail.total_items ++ " - " ++
            jsOptStr detail.item_description
        else
          stageInfo ++ " " ++ jsOptStr detail.current_stage_name ++ ": " ++
            jsOptStr detail.item_description
      { s with lastLoggedMessage := logKey, log := s.log ++ [line] }
    else s
  | none =>
    match data.message with
    | some msg =>
      if msg = "" then s
      else
        let s :=
          match jsMatchStage msg with
          | some st => { s with currentStage := st }
          | none => s
        if msg ≠ s.lastLoggedMessage then
          { s with lastLoggedMessage := msg, log := s.log ++ [msg] }
        else s
    | none => s

/-- `pollPrepareStatus`: the 2-second prepare-status poll callback, plus
the `watch(currentStage)` firing at the next suspension point when the
observed stage changed.  `profO`/`confO` are the responses the nested
`loadPreparedData` requests would deliver. -/
def pollPrepareStatusStep (ctx : PrepCtx) (s : PrepState)
    (r : Except String (Envelope PrepData))
    (profO : Except String (Envelope ProfData))
    (confO : Except String (Envelope ConfData)) : PrepState :=
  if s.taskId = none ∧ ctx.simulationId = none then s
  else
    match r with
    | .error _ => s
    | .ok res =>
      if res.success then
        match res.data with
        | some data =>
          let oldStage := s.currentStage
          let s := prepApplyDetail s data
          let s :=
            if s.currentStage ≠ oldStage then applyStageWatch s.currentStage s else s
          if data.status = some "completed" ∨ data.status = some "ready" ∨
              data.already_prepared then
            let s := { s with
              log := s.log ++ ["✓ 准备WorkCompleted"]
              pollTimer := false
              profilesTimer := false }
            loadPreparedDataStep ctx s profO confO
          else if data.status = some "failed" then
            { s with
              log := s.log ++ ["✗ 准备Failed: " ++ jsOrOpt data.error "未知Error"]
              pollTimer := false
              profilesTimer := false }
          else s
        | none => s
      else s

/-- `startPrepareSimulation` (fired once from `onMounted`). -/
def startPrepareSimulationStep (ctx : PrepCtx) (s : PrepState)
    (r : Except String (Envelope PrepStartData))
    (profO : Except String (Envelope ProfData))
    (confO : Except String (Envelope ConfData)) : PrepState :=
  match ctx.simulationId with
  | none =>
    { s with
      log := s.log ++ ["Error: Missing simulationId"]
      statusEmits := s.statusEmits ++ ["error"] }
  | some sid =>
    let s := { s with
      phase := 1
      log := s.log ++ ["Simulation instance created: " ++ sid,
        "Preparing simulation environment..."]
      statusEmits := s.statusEmits ++ ["processing"] }
    match r with
    | .error msg =>
      { s with
        log := s.log ++ ["准备异常: " ++ msg]
        statusEmits := s.statusEmits ++ ["error"] }
    | .ok res =>
      if res.success then
        match res.data with
        | some d =>
          if d.already_prepared then
            let s := { s with
              log := s.log ++ ["Detected existing preparation work, using directly"] }
            loadPreparedDataStep ctx s profO confO
          else
            let s := { s with
              taskId := d.task_id
              log := s.log ++ ["Preparation task started",
                "  └─ Task ID: " ++ jsOptStr d.task_id] }
            let s :=
              match d.expected_entities_count with
              | some cnt =>
                if cnt ≠ 0 then
                  let s := { s with
                    expectedTotal := some cnt
                    log := s.log ++
                      ["Read " ++ toString cnt ++ " entities from graph"] }
                  if d.entity_types ≠ [] then
                    { s with log := s.log ++
                      ["  └─ Entity Types: " ++ String.intercalate ", " d.entity_types] }
                  else s
                else s
              | none => s
            { s with
              log := s.log ++ ["Starting to poll preparation progress..."]
              pollTimer := true
              profilesTimer := true }
        | none =>
          { s with
            log := s.log ++ ["Preparation failed: " ++ jsOrOpt res.error "Unknown error"]
            statusEmits := s.statusEmits ++ ["error"] }
      else
        { s with
          log := s.log ++ ["Preparation failed: " ++ jsOrOpt res.error "Unknown error"]
          statusEmits := s.statusEmits ++ ["error"] }

/-- Events of the preparation panel. -/
inductive PrepEvent where
  | mountStart (r : Except String (Envelope PrepStartData))
      (profO : Except String (Envelope ProfData))
      (confO : Except String (Envelope ConfData))
  | pollPrepare (r : Except String (Envelope PrepData))
      (profO : Except String (Envelope ProfData))
      (confO : Except String (Envelope ConfData))
  | pollProfiles (r : Except String (Envelope ProfData))
  | pollConfig (r : Except String (Envelope ConfData))
deriving Repr

/-- One cooperative event-loop step of the preparation panel; poll events
for cleared timers do not fire and mounting fires at most once. -/
def prepStep (ctx : PrepCtx) (s : PrepState) : PrepEvent → PrepState
  | .mountStart r p c =>
    if s.started then s
    else startPrepareSimulationStep ctx { s with started := true } r p c
  | .pollPrepare r p c =>
    if s.pollTimer then pollPrepareStatusStep ctx s r p c else s
  | .pollProfiles r =>
    if s.profilesTimer then fetchProfilesRealtimeStep ctx s r else s
  | .pollConfig r =>
    if s.configTimer then fetchConfigRealtimeStep ctx s r else s

/-- All states observed along a run of the preparation panel. -/
def prepTrace (ctx : PrepCtx) (evs : List PrepEvent) : List PrepState :=
  evs.scanl (prepStep ctx) prepInit

/-- Whether a preparation-panel event is the mount-time start. -/
def isMountEvent : PrepEvent → Bool
  | .mountStart _ _ _ => true
  | _ => false

/-- Whether a prepare-status response triggers the terminal-state reload
(`loadPreparedData`): a successful response whose data reports status
`completed`/`ready` or `already_prepared`. -/
def triggersReload : PrepEvent → Bool
  | .pollPrepare (.ok res) _ _ =>
    res.success &&
      (match res.data with
       | some data =>
         decide (data.status = some "completed" ∨ data.status = some "ready" ∨
           data.already_prepared)
       | none => false)
  | _ => false

/-- The stage string a prepare-status response would install in
`currentStage` (mirrors the assignment paths of `pollPrepareStatus`). -/
def newStageOf (s : PrepState) : PrepData → String
  | data =>
    match data.progress_detail with
    | some detail => jsOrOpt detail.current_stage_name ""
    | none =>
      match data.message with
      | some msg =>
        if msg = "" then s.currentStage
        else
          match jsMatchStage msg with
          | some st => st
          | none => s.currentStage
      | none => s.currentStage

/-- The phase the `watch(currentStage)` mapping would assign for a stage
string, when recognized. -/
def stagePhase? (st : String) : Option Nat :=
  if st = "GeneratingAgentProfile" ∨ st = "generating_profiles" then some 1
  else if st = "GeneratingSimulationconfiguration" ∨ st = "generating_config" then
    some 2
  else if st = "准备Simulation脚本" ∨ st = "copying_scripts" then some 2
  else none

/-- A preparation-panel event is stage-safe in a state when any stage it
makes the watch apply maps to a phase no smaller than the current one. -/
def stageSafe (s : PrepState) : PrepEvent → Prop
  | .pollPrepare (.ok res) _ _ =>
    ∀ data, res.success = true → res.data = some data →
      ∀ p, stagePhase? (newStageOf s data) = some p → s.phase ≤ p
  | _ => True

/-! ## Bounded diagnostic logs (`addLog` in the step views and layout) -/

/-- A diagnostic log line `{time, msg}`. -/
structure LogEntry where
  time : String
  msg : String
deriving DecidableEq, Repr

/-- `addLog` of the step views (part_000/part_001 line 118): push, then
evict the oldest entry once the length exceeds 100. -/
def addLogSystem (log : List LogEntry) (e : LogEntry) : List LogEntry :=
  let l := log ++ [e]
  if 100 < l.length then l.tail else l

/-- `addLog` of the run-phase layout (part_001 line 1242): capacity 200. -/
def addLogRun (log : List LogEntry) (e : LogEntry) : List LogEntry :=
  let l := log ++ [e]
  if 200 < l.length then l.tail else l

/-- The common capacity-parametric form of the two `addLog` variants. -/
def addLogBounded (cap : Nat) (log : List LogEntry) (e : LogEntry) : List LogEntry :=
  let l := log ++ [e]
  if cap < l.length then l.tail else l

/-! ## Environment lifecycle manager (part_000)

`checkAndStopRunningSimulation` / `forceStopSimulation`: modelled as a
function from the responses the four requests would deliver to the list
of requests actually issued plus the log lines produced. -/

/-- `POST /simulation/env-status` payload. -/
structure EnvData where
  env_alive : Bool
deriving DecidableEq, Repr

/-- `GET /simulation/{id}` payload (field read by the teardown check). -/
structure SimData where
  status : Option String
deriving DecidableEq, Repr

/-- The mutating/querying backend calls the teardown sequence can issue. -/
inductive TeardownCall where
  | envStatus
  | closeEnv
  | getSim
  | stopSim
deriving DecidableEq, Repr

/-- Responses the four possible requests would deliver. -/
structure TeardownOracles where
  env : Except String (Envelope EnvData)
  close : Except String (Envelope Unit)
  sim : Except String (Envelope SimData)
  stop : Except String (Envelope Unit)

/-- `forceStopSimulation`: issue `POST /simulation/stop`, log the outcome,
swallow its errors. -/
def forceStopSimulation (o : TeardownOracles) : List TeardownCall × List String :=
  ([.stopSim],
    match o.stop with
    | .error msg => ["Force stop simulation error: " ++ msg]
    | .ok res =>
      if res.success then ["✓ Simulation force stopped"]
      else ["Force stop simulation failed: " ++ jsOrOpt res.error "Unknown error"])

/-- `checkAndStopRunningSimulation`: returns the calls issued (in order)
and the log lines produced on backward navigation. -/
def checkAndStopRunningSimulation (simulationId : Option String)
    (o : TeardownOracles) : List TeardownCall × List String :=
  match simulationId with
  | none => ([], [])
  | some _ =>
    match o.env with
    | .error _ => ([.envStatus], [])
    | .ok envRes =>
      if envRes.success &&
          (match envRes.data with
           | some d => d.env_alive
           | none => false) then
        let logs0 := ["Detected running simulation environment, closing..."]
        match o.close with
        | .error msg =>
          let fs := forceStopSimulation o
          ([.envStatus, .closeEnv] ++ fs.1,
            logs0 ++ ["Close simulation environment error: " ++ msg] ++ fs.2)
        | .ok closeRes =>
          if closeRes.success then
            ([.envStatus, .closeEnv], logs0 ++ ["✓ Simulation environment closed"])
          else
            let fs := forceStopSimulation o
            ([.envStatus, .closeEnv] ++ fs.1,
              logs0 ++
                ["Failed to close simulation environment: " ++
                  jsOrOpt closeRes.error "Unknown error"] ++ fs.2)
      else
        match o.sim with
        | .error _ => ([.envStatus, .getSim], [])
        | .ok simRes =>
          if simRes.success &&
              (match simRes.data with
               | some d => d.status == some "running"
               | none => false) then
            let fs := forceStopSimulation o
            ([.envStatus, .getSim] ++ fs.1,
              ["Detected simulation status as Running, stopping..."] ++ fs.2)
          else ([.envStatus, .getSim], [])

/-! ## Named conditions used by the theorems -/

/-- The liveness check reported success with `env_alive` set
(`envStatusRes.success && envStatusRes.data?.env_alive`). -/
def envAliveResp : Except String (Envelope EnvData) → Bool
  | .error _ => false
  | .ok res =>
    res.success &&
      (match res.data with
       | some d => d.env_alive
       | none => false)

/-- The graceful close threw or returned non-success. -/
def closeFailed : Except String (Envelope Unit) → Bool
  | .error _ => true
  | .ok res => !res.success

/-- The simulation's own status read back as `running`
(`simRes.success && simRes.data?.status === 'running'`). -/
def simRunningResp : Except String (Envelope SimData) → Bool
  | .error _ => false
  | .ok res =>
    res.success &&
      (match res.data with
       | some d => d.status == some "running"
       | none => false)

/-- The request threw. -/
def isThrown {α : Type} : Except String α → Bool
  | .error _ => true
  | .ok _ => false

/-- Whether a list of edge records contains a self-loop at node `u`. -/
def hasSelfLoopAt (l : List GEdge) (u : String) : Bool :=
  l.any (fun e =>
    decide (e.source_node_uuid = e.target_node_uuid ∧ e.source_node_uuid = u))

/-! # Theorems -/

/-! ## C2: dual-platform completion gate -/

/-- C2 counterexample: in the run-status below, twitter has reached
`total_rounds` and reddit's `current_round` is 0, yet (because reddit's
`completed` flag is set) the check does report overall completion —
refuting the claim's "for every run-status where twitter has reached
total_rounds but reddit's current_round is 0, the check does not report
overall completion". -/
theorem C2_counterexample :
    checkPlatformsCompleted
      { twitter_current_round := 5
        reddit_current_round := 0
        total_rounds := 5
        twitter_actions_count := 0
        reddit_actions_count := 0
        twitter_simulated_hours := none
        reddit_simulated_hours := none
        twitter_completed := false
        reddit_completed := true
        runner_status := none } = true := by decide

/-- C2 (amended): `checkPlatformsCompleted` returns true exactly when both
platforms are finished — a platform is finished iff its completed flag is
true, or its current round is positive and at least `total_rounds` — and
in particular, whenever twitter has reached `total_rounds` but reddit's
`current_round` is 0 *and reddit's completed flag is not set*, the check
does not report overall completion. -/
theorem C2_platform_completion (d : RunStatusData) :
    (checkPlatformsCompleted d = true ↔
      ((d.twitter_completed = true ∨
          (0 < d.twitter_current_round ∧
            d.total_rounds ≤ d.twitter_current_round)) ∧
        (d.reddit_completed = true ∨
          (0 < d.reddit_current_round ∧
            d.total_rounds ≤ d.reddit_current_round)))) ∧
    (d.total_rounds ≤ d.twitter_current_round → d.reddit_current_round = 0 →
      d.reddit_completed = false → checkPlatformsCompleted d = false) := by
  constructor
  · unfold checkPlatformsCompleted
    simp [Bool.and_eq_true, Bool.or_eq_true, decide_eq_true_eq]
  · intro _ h2 h3
    unfold checkPlatformsCompleted
    simp [h2, h3]

/-- C2 witness: the amended gate at a concrete run-status (twitter done,
reddit untouched, no reddit flag) reports no completion. -/
theorem C2_witness :
    checkPlatformsCompleted
      { twitter_current_round := 5
        reddit_current_round := 0
        total_rounds := 5
        twitter_actions_count := 12
        reddit_actions_count := 0
        twitter_simulated_hours := none
        reddit_simulated_hours := none
        twitter_completed := false
        reddit_completed := false
        runner_status := none } = false :=
  (C2_platform_completion _).2 (by decide) (by decide) (by decide)

/-! ## C7: transient poll failures are no-ops -/

/-- C7: a thrown status request (network/parse error) leaves every poll
callback's state — phase, run status, action log, dedup set, timers —
unchanged: the recurring poll is not cancelled and the failure is not
treated as task failure. -/
theorem C7_transient_poll_noop (rctx : RunCtx) (rs : RunState)
    (pctx : PrepCtx) (ps : PrepState) (msg : String)
    (profO : Except String (Envelope ProfData))
    (confO : Except String (Envelope ConfData)) :
    fetchRunStatusStep rctx rs (.error msg) = rs ∧
    fetchRunStatusDetailStep rctx rs (.error msg) = rs ∧
    pollPrepareStatusStep pctx ps (.error msg) profO confO = ps ∧
    fetchProfilesRealtimeStep pctx ps (.error msg) = ps ∧
    fetchConfigRealtimeStep pctx ps (.error msg) = ps := by
  refine ⟨?_, ?_, ?_, ?_, ?_⟩ <;>
    first
    | (unfold fetchRunStatusStep; cases rctx.simulationId <;> rfl)
    | (unfold fetchRunStatusDetailStep; cases rctx.simulationId <;> rfl)
    | (unfold pollPrepareStatusStep; split <;> rfl)
    | (unfold fetchProfilesRealtimeStep; cases pctx.simulationId <;> rfl)
    | (unfold fetchConfigRealtimeStep; cases pctx.simulationId <;> rfl)

/-! ## C10: server-reported terminal runner status bypasses the gate -/

/-- C10: whenever a successful run-status response reports
`runner_status` `completed` or `stopped`, the callback completes the run
regardless of the per-platform data: phase becomes 2 (completed), both
pollers are stopped, and `completed` is emitted. -/
theorem C10_runner_status_completion (ctx : RunCtx) (s : RunState)
    (res : Envelope RunStatusData) (d : RunStatusData) (sid : String)
    (hsid : ctx.simulationId = some sid)
    (hres : res.success = true) (hdata : res.data = some d)
    (hrs : d.runner_status = some "completed" ∨ d.runner_status = some "stopped") :
    (fetchRunStatusStep ctx s (.ok res)).phase = 2 ∧
    (fetchRunStatusStep ctx s (.ok res)).statusTimer = false ∧
    (fetchRunStatusStep ctx s (.ok res)).detailTimer = false ∧
    (fetchRunStatusStep ctx s (.ok res)).statusEmits = s.statusEmits ++ ["completed"] := by
  have hcomp : (d.runner_status == some "completed" ||
      d.runner_status == some "stopped") = true := by
    rcases hrs with h | h <;> simp [h]
  unfold fetchRunStatusStep
  rw [hsid]
  simp only [hres, hdata, if_true]
  rw [hcomp]
  simp only [Bool.true_or, if_true]
  split <;> split <;> split <;> simp

/-- C10 witness: a stopped runner with both platform flags clear and no
rounds run still completes the run phase and stops both pollers. -/
theorem C10_witness :
    (fetchRunStatusStep ⟨some "sim-1", none⟩ runInit
      (.ok ⟨true, some
        { twitter_current_round := 0
          reddit_current_round := 0
          total_rounds := 40
          twitter_actions_count := 0
          reddit_actions_count := 0
          twitter_simulated_hours := none
          reddit_simulated_hours := none
          twitter_completed := false
          reddit_completed := false
          runner_status := some "stopped" }, none⟩)).phase = 2 ∧
    (fetchRunStatusStep ⟨some "sim-1", none⟩ runInit
      (.ok ⟨true, some
        { twitter_current_round := 0
          reddit_current_round := 0
          total_rounds := 40
          twitter_actions_count := 0
          reddit_actions_count := 0
          twitter_simulated_hours := none
          reddit_simulated_hours := none
          twitter_completed := false
          reddit_completed := false
          runner_status := some "stopped" }, none⟩)).statusTimer = false ∧
    (fetchRunStatusStep ⟨some "sim-1", none⟩ runInit
      (.ok ⟨true, some
        { twitter_current_round := 0
          reddit_current_round := 0
          total_rounds := 40
          twitter_actions_count := 0
          reddit_actions_count := 0
          twitter_simulated_hours := none
          reddit_simulated_hours := none
          twitter_completed := false
          reddit_completed := false
          runner_status := some "stopped" }, none⟩)).detailTimer = false ∧
    (fetchRunStatusStep ⟨some "sim-1", none⟩ runInit
      (.ok ⟨true, some
        { twitter_current_round := 0
          reddit_current_round := 0
          total_rounds := 40
          twitter_actions_count := 0
          reddit_actions_count := 0
          twitter_simulated_hours := none
          reddit_simulated_hours := none
          twitter_completed := false
          reddit_completed := false
          runner_status := some "stopped" }, none⟩)).statusEmits =
      runInit.statusEmits ++ ["completed"] :=
  C10_runner_status_completion _ _ _ _ "sim-1" rfl rfl rfl (Or.inr rfl)

/-! ## C5: bounded FIFO diagnostic log -/

/-- Folding the bounded `addLog` from a state within capacity keeps the
last `cap` entries of everything appended, in order. -/
theorem foldl_addLogBounded (cap : Nat) :
    ∀ (es log : List LogEntry), log.length ≤ cap →
      es.foldl (addLogBounded cap) log =
        (log ++ es).drop (log.length + es.length - cap) := by
  intro es
  induction es with
  | nil =>
    intro log h
    simp [Nat.sub_eq_zero_of_le h]
  | cons e t ih =>
    intro log h
    rw [List.foldl_cons]
    by_cases hlt : log.length + 1 ≤ cap
    · have hstep : addLogBounded cap log e = log ++ [e] := by
        unfold addLogBounded
        rw [if_neg]
        simp only [List.length_append, List.length_singleton]
        omega
      rw [hstep, ih (log ++ [e]) (by simpa using hlt)]
      simp only [List.length_append, List.length_singleton, List.length_cons,
        List.length_nil]
      rw [List.append_assoc, List.singleton_append]
      congr 1
      omega
    · have hlen : log.length = cap := by omega
      have hstep : addLogBounded cap log e = (log ++ [e]).drop 1 := by
        unfold addLogBounded
        rw [if_pos]
        · exact (List.drop_one _).symm
        · simp only [List.length_append, List.length_singleton]
          omega
      have hdlen : ((log ++ [e]).drop 1).length = cap := by
        simp only [List.length_drop, List.length_append, List.length_singleton]
        omega
      rw [hstep, ih _ (le_of_eq hdlen), hdlen]
      have h1 : (1 : ℕ) ≤ (log ++ [e]).length := by
        simp only [List.length_append, List.length_singleton]
        omega
      simp only [List.length_cons]
      rw [← List.drop_append_of_le_length h1, List.drop_drop]
      rw [List.append_assoc, List.singleton_append]
      congr 1
      omega

/-- C5: both bounded logs are FIFO buffers — pushing a sequence of entries
into an initially empty log keeps exactly the last `cap` of them
(cap 100 for the step views, 200 for the run-phase view) in original
relative order; in particular 105 single appends leave exactly entries
6–105. -/
theorem C5_log_bound :
    (∀ es : List LogEntry, es.foldl addLogSystem [] = es.drop (es.length - 100)) ∧
    (∀ es : List LogEntry, es.foldl addLogRun [] = es.drop (es.length - 200)) ∧
    (((List.range 105).map (fun n => ({ time := "", msg := toString n } : LogEntry))).foldl
        addLogSystem [] =
      ((List.range 105).map (fun n => ({ time := "", msg := toString n } : LogEntry))).drop 5) := by
  have h100 : addLogSystem = addLogBounded 100 := rfl
  have h200 : addLogRun = addLogBounded 200 := rfl
  refine ⟨?_, ?_, ?_⟩
  · intro es
    rw [h100, foldl_addLogBounded 100 es [] (by simp)]
    simp
  · intro es
    rw [h200, foldl_addLogBounded 200 es [] (by simp)]
    simp
  · rw [h100, foldl_addLogBounded 100 _ [] (by simp)]
    simp

/-! ## C3: idempotent, order-preserving action ingestion -/

/-- Keys present in the dedup set survive ingestion. -/
theorem ingest_ids_mono :
    ∀ (records : List ActionRec) (ids : List String)
      (acts : List (ActionRec × String)) (k : String),
      k ∈ ids → k ∈ (ingestActions (ids, acts) records).1 := by
  intro records
  induction records with
  | nil => intro ids acts k hk; exact hk
  | cons a rest ih =>
    intro ids acts k hk
    unfold ingestActions
    dsimp only
    split
    · exact ih ids acts k hk
    · exact ih _ _ k (List.mem_cons_of_mem _ hk)

/-- Every ingested record's key is in the resulting dedup set. -/
theorem ingest_key_mem :
    ∀ (records : List ActionRec) (ids : List String)
      (acts : List (ActionRec × String)) (a : ActionRec),
      a ∈ records → actionKey a ∈ (ingestActions (ids, acts) records).1 := by
  intro records
  induction records with
  | nil => intro ids acts a ha; cases ha
  | cons b rest ih =>
    intro ids acts a ha
    unfold ingestActions
    dsimp only
    rcases List.mem_cons.mp ha with rfl | ha'
    · split
      · exact ingest_ids_mono rest ids acts _ (by assumption)
      · exact ingest_ids_mono rest _ _ _ (List.mem_cons_self _ _)
    · split
      · exact ih ids acts a ha'
      · exact ih _ _ a ha'

/-- Ingesting records whose keys are all already known is a no-op. -/
theorem ingest_noop :
    ∀ (records : List ActionRec) (ids : List String)
      (acts : List (ActionRec × String)),
      (∀ a ∈ records, actionKey a ∈ ids) →
      ingestActions (ids, acts) records = (ids, acts) := by
  intro records
  induction records with
  | nil => intro ids acts _; rfl
  | cons a rest ih =>
    intro ids acts h
    unfold ingestActions
    dsimp only
    rw [if_pos (h a (List.mem_cons_self _ _))]
    exact ih ids acts (fun b hb => h b (List.mem_cons_of_mem _ hb))

/-- Ingestion only appends, and the appended records form an
order-preserving subsequence of the incoming snapshot. -/
theorem ingest_log_extend :
    ∀ (records : List ActionRec) (ids : List String)
      (acts : List (ActionRec × String)),
      ∃ t, (ingestActions (ids, acts) records).2 = acts ++ t ∧
        List.Sublist (t.map Prod.fst) records := by
  intro records
  induction records with
  | nil => intro ids acts; exact ⟨[], by simp [ingestActions], List.nil_sublist _⟩
  | cons a rest ih =>
    intro ids acts
    unfold ingestActions
    dsimp only
    split
    · obtain ⟨t, ht, hs⟩ := ih ids acts
      exact ⟨t, ht, hs.cons a⟩
    · obtain ⟨t, ht, hs⟩ := ih (actionKey a :: ids) (acts ++ [(a, actionKey a)])
      refine ⟨(a, actionKey a) :: t, ?_, ?_⟩
      · rw [ht, List.append_assoc, List.singleton_append]
      · simpa using hs.cons₂ a

/-- C3: re-ingesting the same full action snapshot any positive number of
times leaves the action log (and dedup set) exactly as after the first
ingestion, and the genuinely new records are appended at the end of the
log in arrival order (an order-preserving subsequence of the snapshot). -/
theorem C3_ingest_idempotent_ordered (ids : List String)
    (acts : List (ActionRec × String)) (records : List ActionRec)
    (n : Nat) (hn : 1 ≤ n) :
    iterIngest (ids, acts) records n = ingestActions (ids, acts) records ∧
    ∃ t, (ingestActions (ids, acts) records).2 = acts ++ t ∧
      List.Sublist (t.map Prod.fst) records := by
  refine ⟨?_, ingest_log_extend records ids acts⟩
  induction n with
  | zero => omega
  | succ m ihm =>
    rcases Nat.eq_or_lt_of_le hn with h1 | h2
    · rw [← h1]
      rfl
    · have hm : 1 ≤ m := by omega
      rw [show iterIngest (ids, acts) records (m + 1) =
        ingestActions (iterIngest (ids, acts) records m) records from rfl]
      rw [ihm hm]
      have hkeys : ∀ a ∈ records, actionKey a ∈ (ingestActions (ids, acts) records).1 :=
        fun a ha => ingest_key_mem records ids acts a ha
      have hno := ingest_noop records (ingestActions (ids, acts) records).1
        (ingestActions (ids, acts) records).2 hkeys
      simpa using hno

/-- C3 witness: ingesting a concrete two-record snapshot twice equals
ingesting it once, and the log is the appended snapshot in order. -/
theorem C3_witness :
    iterIngest ([], [])
      [{ id := some "a1", timestamp := "t0", platform := "twitter",
         agent_id := 0, action_type := "CREATE_POST", content := none },
       { id := none, timestamp := "t1", platform := "reddit",
         agent_id := 3, action_type := "LIKE_POST", content := none }] 2 =
      ingestActions ([], [])
        [{ id := some "a1", timestamp := "t0", platform := "twitter",
           agent_id := 0, action_type := "CREATE_POST", content := none },
         { id := none, timestamp := "t1", platform := "reddit",
           agent_id := 3, action_type := "LIKE_POST", content := none }] ∧
    ∃ t, (ingestActions ([], [])
        [{ id := some "a1", timestamp := "t0", platform := "twitter",
           agent_id := 0, action_type := "CREATE_POST", content := none },
         { id := none, timestamp := "t1", platform := "reddit",
           agent_id := 3, action_type := "LIKE_POST", content := none }]).2 = [] ++ t ∧
      List.Sublist (t.map Prod.fst)
        [{ id := some "a1", timestamp := "t0", platform := "twitter",
           agent_id := 0, action_type := "CREATE_POST", content := none },
         { id := none, timestamp := "t1", platform := "reddit",
           agent_id := 3, action_type := "LIKE_POST", content := none }] :=
  C3_ingest_idempotent_ordered [] [] _ 2 (by decide)

/-! ## C6: profile growth-event watermark -/

/-- C6 counterexample: with watermark `lastLoggedProfileCount = 5`, a poll
returning only 3 profiles — a count *not greater* than the watermark —
still emits a growth-event line (the code logs on any change of the
count, not only on increases). -/
theorem C6_counterexample :
    (fetchProfilesRealtimeStep ⟨some "sim-1"⟩
        { prepInit with lastLoggedProfileCount := 5 }
        (.ok ⟨true, some
          { profiles := some [⟨none, none, none, none⟩, ⟨none, none, none, none⟩,
              ⟨none, none, none, none⟩]
            total_expected := some 8 }, none⟩)).log =
      ["→ AgentProfile 3/8: Agent_3 (Unknown Profession)"] ∧
    (fetchProfilesRealtimeStep ⟨some "sim-1"⟩
        { prepInit with lastLoggedProfileCount := 5 }
        (.ok ⟨true, some
          { profiles := some [⟨none, none, none, none⟩, ⟨none, none, none, none⟩,
              ⟨none, none, none, none⟩]
            total_expected := some 8 }, none⟩)).lastLoggedProfileCount = 3 ∧
    (3 : Nat) ≤ 5 := by
  refine ⟨?_, ?_, by decide⟩ <;> rfl

/-- C6 (amended): a profile-generation growth line is appended exactly
when the observed profile count is positive and *differs* from the
last-logged count (the watermark) — on any other poll no growth line is
emitted and the watermark is unchanged; when it fires, the watermark is
set to the observed count.  (The watermark path involves no id-based
dedup set at all.) -/
theorem C6_profile_watermark (ctx : PrepCtx) (sid : String) (s : PrepState)
    (res : Envelope ProfData) (d : ProfData)
    (hsid : ctx.simulationId = some sid)
    (hres : res.success = true) (hdata : res.data = some d) :
    (¬ (0 < (d.profiles.getD []).length ∧
        (d.profiles.getD []).length ≠ s.lastLoggedProfileCount) →
      (fetchProfilesRealtimeStep ctx s (.ok res)).log = s.log ∧
      (fetchProfilesRealtimeStep ctx s (.ok res)).lastLoggedProfileCount =
        s.lastLoggedProfileCount) ∧
    ((0 < (d.profiles.getD []).length ∧
        (d.profiles.getD []).length ≠ s.lastLoggedProfileCount) →
      s.log.length < (fetchProfilesRealtimeStep ctx s (.ok res)).log.length ∧
      (fetchProfilesRealtimeStep ctx s (.ok res)).lastLoggedProfileCount =
        (d.profiles.getD []).length) := by
  unfold fetchProfilesRealtimeStep
  rw [hsid]
  simp only [hres, hdata, if_true]
  constructor
  · intro hno
    rw [if_neg hno]
    exact ⟨rfl, rfl⟩
  · intro hyes
    rw [if_pos hyes]
    refine ⟨?_, ?_⟩
    · split <;> split <;> (try split) <;>
        (simp only [List.length_append, List.length_cons, List.length_nil,
          List.length_singleton]; omega)
    · split <;> split <;> (try split) <;> rfl

/-- C6 witness: a genuine growth poll (watermark 0, two profiles) emits a
line and moves the watermark to 2. -/
theorem C6_witness :
    prepInit.log.length <
      (fetchProfilesRealtimeStep ⟨some "sim-1"⟩ prepInit
        (.ok ⟨true, some
          { profiles := some [⟨none, none, none, none⟩, ⟨none, none, none, none⟩]
            total_expected := none }, none⟩)).log.length ∧
    (fetchProfilesRealtimeStep ⟨some "sim-1"⟩ prepInit
        (.ok ⟨true, some
          { profiles := some [⟨none, none, none, none⟩, ⟨none, none, none, none⟩]
            total_expected := none }, none⟩)).lastLoggedProfileCount = 2 :=
  (C6_profile_watermark ⟨some "sim-1"⟩ "sim-1" prepInit
    ⟨true, some { profiles := some [⟨none, none, none, none⟩, ⟨none, none, none, none⟩]
                  total_expected := none }, none⟩
    { profiles := some [⟨none, none, none, none⟩, ⟨none, none, none, none⟩]
      total_expected := none } rfl rfl rfl).2 (by decide)

/-! ## C8: graceful-then-forced environment teardown -/

/-- C8: on backward navigation, (1) if the environment is alive and the
graceful close throws or returns non-success, a forced stop is issued;
(2) if the environment is not alive (liveness check answered, not thrown)
but the simulation's own status is `running`, a forced stop is issued and
no graceful close is attempted; (3) if the liveness check itself throws,
no stop or close call is made (navigation proceeds after the lone
liveness request). -/
theorem C8_teardown_escalation (sid : String) (o : TeardownOracles) :
    (envAliveResp o.env = true → closeFailed o.close = true →
      TeardownCall.stopSim ∈ (checkAndStopRunningSimulation (some sid) o).1) ∧
    (envAliveResp o.env = false → isThrown o.env = false →
      simRunningResp o.sim = true →
      TeardownCall.stopSim ∈ (checkAndStopRunningSimulation (some sid) o).1 ∧
      TeardownCall.closeEnv ∉ (checkAndStopRunningSimulation (some sid) o).1) ∧
    (isThrown o.env = true →
      (checkAndStopRunningSimulation (some sid) o).1 = [TeardownCall.envStatus]) := by
  obtain ⟨env, close, sim, stop⟩ := o
  refine ⟨?_, ?_, ?_⟩
  · intro halive hfail
    rcases env with msg | ⟨esucc, edata, eerr⟩
    · simp [envAliveResp] at halive
    · simp only [envAliveResp] at halive
      rcases edata with _ | ⟨⟨al⟩⟩
      · simp at halive
      · simp at halive
        obtain ⟨rfl, rfl⟩ := halive
        rcases close with cmsg | ⟨csucc, cdata, cerr⟩
        · simp [checkAndStopRunningSimulation, forceStopSimulation]
        · have hcs : csucc = false := by
            simpa [closeFailed] using hfail
          subst hcs
          simp [checkAndStopRunningSimulation, forceStopSimulation]
  · intro hdead hnothrown hrun
    rcases env with msg | ⟨esucc, edata, eerr⟩
    · simp [isThrown] at hnothrown
    · simp only [envAliveResp] at hdead
      rcases sim with smsg | ⟨ssucc, sdata, serr⟩
      · simp [simRunningResp] at hrun
      · simp only [simRunningResp] at hrun
        rcases sdata with _ | ⟨⟨sstat⟩⟩
        · simp at hrun
        · simp at hrun
          obtain ⟨rfl, hs⟩ := hrun
          simp [checkAndStopRunningSimulation, forceStopSimulation, hdead, hs]
  · intro hthrown
    rcases env with msg | ⟨esucc, edata, eerr⟩
    · rfl
    · simp [isThrown] at hthrown

/-- C8 witness: the three escalation branches at concrete oracles —
alive environment with failing close, dead environment with a running
simulation, and a thrown liveness check. -/
theorem C8_witness :
    (TeardownCall.stopSim ∈ (checkAndStopRunningSimulation (some "sim-1")
      { env := .ok ⟨true, some ⟨true⟩, none⟩
        close := .ok ⟨false, none, some "close refused"⟩
        sim := .ok ⟨true, some ⟨some "running"⟩, none⟩
        stop := .ok ⟨true, none, none⟩ }).1) ∧
    (TeardownCall.stopSim ∈ (checkAndStopRunningSimulation (some "sim-1")
      { env := .ok ⟨true, some ⟨false⟩, none⟩
        close := .ok ⟨true, none, none⟩
        sim := .ok ⟨true, some ⟨some "running"⟩, none⟩
        stop := .ok ⟨true, none, none⟩ }).1 ∧
      TeardownCall.closeEnv ∉ (checkAndStopRunningSimulation (some "sim-1")
      { env := .ok ⟨true, some ⟨false⟩, none⟩
        close := .ok ⟨true, none, none⟩
        sim := .ok ⟨true, some ⟨some "running"⟩, none⟩
        stop := .ok ⟨true, none, none⟩ }).1) ∧
    ((checkAndStopRunningSimulation (some "sim-1")
      { env := .error "connection reset"
        close := .ok ⟨true, none, none⟩
        sim := .ok ⟨true, some ⟨some "running"⟩, none⟩
        stop := .ok ⟨true, none, none⟩ }).1 = [TeardownCall.envStatus]) :=
  ⟨(C8_teardown_escalation "sim-1" _).1 (by decide) (by decide),
   (C8_teardown_escalation "sim-1" _).2.1 (by decide) (by decide) (by decide),
   (C8_teardown_escalation "sim-1" _).2.2 (by decide)⟩


/-! ## C9: self-loop merging -/

/-- Pass 2 emits, among the edges filtered to self-loops at `X`, exactly
one merged edge — when some self-loop at `X` exists and `X` is not yet
processed — built from the complete pass-1 record list. -/
theorem renderAux_self_filter (cnt : String → Nat) (loops : String → List SLRec)
    (findName : String → Option String) (X : String) :
    ∀ (rest : List GEdge) (idx : String → Nat) (processed : String → Bool),
      (renderEdgesAux cnt loops findName idx processed rest).filter
          (fun r => r.isSelfLoop && (r.source == X)) =
        if processed X = false ∧ hasSelfLoopAt rest X = true
        then [selfREdge findName loops X] else [] := by
  intro rest
  induction rest with
  | nil =>
    intro idx processed
    simp [renderEdgesAux, hasSelfLoopAt]
  | cons e rest ih =>
    intro idx processed
    unfold renderEdgesAux
    by_cases hself : e.source_node_uuid = e.target_node_uuid
    · rw [if_pos hself]
      by_cases hproc : processed e.source_node_uuid
      · rw [if_pos hproc, ih]
        by_cases hx : e.source_node_uuid = X
        · subst hx
          simp [hproc, hasSelfLoopAt]
        · have : hasSelfLoopAt (e :: rest) X = hasSelfLoopAt rest X := by
            simp [hasSelfLoopAt, List.any_cons, hx]
          rw [this]
      · rw [if_neg hproc]
        rw [List.filter_cons]
        by_cases hx : e.source_node_uuid = X
        · subst hx
          have hkeep : ((selfREdge findName loops e.source_node_uuid).isSelfLoop &&
              ((selfREdge findName loops e.source_node_uuid).source == e.source_node_uuid)) = true := by
            simp [selfREdge]
          rw [if_pos hkeep, ih]
          have hcond : ((fun u => if u = e.source_node_uuid then true else processed u)
              e.source_node_uuid) = true := by simp
          rw [if_neg (by simp [hcond])]
          have : hasSelfLoopAt (e :: rest) e.source_node_uuid = true := by
            simp [hasSelfLoopAt, List.any_cons, hself]
          rw [if_pos ⟨by simpa using hproc, this⟩]
        · have hdrop : ((selfREdge findName loops e.source_node_uuid).isSelfLoop &&
              ((selfREdge findName loops e.source_node_uuid).source == X)) = false := by
            simp [selfREdge, hx]
          rw [if_neg (by simp [hdrop]), ih]
          have h1 : (if X = e.source_node_uuid then true else processed X) = processed X := by
            rw [if_neg (fun h => hx h.symm)]
          have h2 : hasSelfLoopAt (e :: rest) X = hasSelfLoopAt rest X := by
            simp [hasSelfLoopAt, List.any_cons, hx]
          rw [h1, h2]
    · rw [if_neg hself, List.filter_cons]
      have hdrop : ((pairREdge findName e (idx (pairKeyOf e)) (cnt (pairKeyOf e))).isSelfLoop &&
          ((pairREdge findName e (idx (pairKeyOf e)) (cnt (pairKeyOf e))).source == X)) = false := by
        simp [pairREdge]
      rw [if_neg (by simp [hdrop]), ih]
      have h2 : hasSelfLoopAt (e :: rest) X = hasSelfLoopAt rest X := by
        simp [hasSelfLoopAt, List.any_cons, hself]
      rw [h2]

/-- C9: for every node `X` with at least one self-loop record in the
snapshot, the rendered edge list contains exactly one self-loop edge for
`X`, and it carries the count `m` of self-loop records at `X` together
with the full list of those `m` underlying records (in arrival order). -/
theorem C9_selfloop_merge (nodes : List GNode) (edgesData : List GEdge) (X : String)
    (h : selfLoopRecordsOf nodes edgesData X ≠ []) :
    (renderGraphEdges nodes edgesData).filter
        (fun r => r.isSelfLoop && (r.source == X)) =
      [selfREdge (findNodeName nodes) (selfLoopRecordsOf nodes edgesData) X] ∧
    (selfREdge (findNodeName nodes) (selfLoopRecordsOf nodes edgesData) X).rawData =
      RRaw.selfGroup (jsOrOpt (findNodeName nodes X) "Unknown")
        (jsOrOpt (findNodeName nodes X) "Unknown")
        (selfLoopRecordsOf nodes edgesData X).length
        (selfLoopRecordsOf nodes edgesData X) := by
  constructor
  · have hany : hasSelfLoopAt (tempEdgesOf nodes edgesData) X = true := by
      simp only [selfLoopRecordsOf, ne_eq, List.map_eq_nil_iff] at h
      rw [hasSelfLoopAt, List.any_eq_true]
      rcases List.exists_mem_of_ne_nil _ h with ⟨e, he⟩
      have := List.of_mem_filter he
      exact ⟨e, List.mem_of_mem_filter he, this⟩
    unfold renderGraphEdges
    rw [renderAux_self_filter, if_pos ⟨rfl, hany⟩]
  · rfl

/-- C9 witness: 4 self-loop records on node `x` render as exactly one
self-relations edge carrying count 4 and the 4 underlying records. -/
theorem C9_witness :
    (renderGraphEdges [⟨"x", "Node X"⟩]
        [⟨"e1", "x", "x", "r1", "REL"⟩, ⟨"e2", "x", "x", "r2", "REL"⟩,
         ⟨"e3", "x", "x", "r3", "REL"⟩, ⟨"e4", "x", "x", "r4", "REL"⟩]).filter
        (fun r => r.isSelfLoop && (r.source == "x")) =
      [selfREdge (findNodeName [⟨"x", "Node X"⟩])
        (selfLoopRecordsOf [⟨"x", "Node X"⟩]
          [⟨"e1", "x", "x", "r1", "REL"⟩, ⟨"e2", "x", "x", "r2", "REL"⟩,
           ⟨"e3", "x", "x", "r3", "REL"⟩, ⟨"e4", "x", "x", "r4", "REL"⟩]) "x"] ∧
    (selfREdge (findNodeName [⟨"x", "Node X"⟩])
        (selfLoopRecordsOf [⟨"x", "Node X"⟩]
          [⟨"e1", "x", "x", "r1", "REL"⟩, ⟨"e2", "x", "x", "r2", "REL"⟩,
           ⟨"e3", "x", "x", "r3", "REL"⟩, ⟨"e4", "x", "x", "r4", "REL"⟩]) "x").rawData =
      RRaw.selfGroup
        (jsOrOpt (findNodeName [⟨"x", "Node X"⟩] "x") "Unknown")
        (jsOrOpt (findNodeName [⟨"x", "Node X"⟩] "x") "Unknown")
        (selfLoopRecordsOf [⟨"x", "Node X"⟩]
          [⟨"e1", "x", "x", "r1", "REL"⟩, ⟨"e2", "x", "x", "r2", "REL"⟩,
           ⟨"e3", "x", "x", "r3", "REL"⟩, ⟨"e4", "x", "x", "r4", "REL"⟩] "x").length
        (selfLoopRecordsOf [⟨"x", "Node X"⟩]
          [⟨"e1", "x", "x", "r1", "REL"⟩, ⟨"e2", "x", "x", "r2", "REL"⟩,
           ⟨"e3", "x", "x", "r3", "REL"⟩, ⟨"e4", "x", "x", "r4", "REL"⟩] "x") ∧
    (selfLoopRecordsOf [⟨"x", "Node X"⟩]
        [⟨"e1", "x", "x", "r1", "REL"⟩, ⟨"e2", "x", "x", "r2", "REL"⟩,
         ⟨"e3", "x", "x", "r3", "REL"⟩, ⟨"e4", "x", "x", "r4", "REL"⟩] "x").length = 4 :=
  ⟨(C9_selfloop_merge _ _ "x" (by decide)).1,
   (C9_selfloop_merge _ _ "x" (by decide)).2, by decide⟩


/-! ## C1: multi-edge curvature assignment -/

theorem jsLtChars_asymm : ∀ (x y : List Char),
    jsLtChars x y = true → jsLtChars y x = false := by
  intro x
  induction x with
  | nil =>
    intro y h
    cases y with
    | nil => simp [jsLtChars] at h
    | cons b bs => simp [jsLtChars]
  | cons a as ih =>
    intro y h
    cases y with
    | nil => simp [jsLtChars] at h
    | cons b bs =>
      unfold jsLtChars at h ⊢
      by_cases hab : a.toNat < b.toNat
      · rw [if_neg (by omega), if_pos (by omega)]
      · rw [if_neg hab] at h
        by_cases hba : b.toNat < a.toNat
        · rw [if_pos hba] at h
          cases h
        · rw [if_neg hba] at h
          rw [if_neg hab, if_neg hba]
          exact ih bs h

/-- If neither string is below the other they are equal. -/

theorem jsLtChars_conn : ∀ (x y : List Char),
    jsLtChars x y = false → jsLtChars y x = false → x = y := by
  intro x
  induction x with
  | nil =>
    intro y h _
    cases y with
    | nil => rfl
    | cons b bs => simp [jsLtChars] at h
  | cons a as ih =>
    intro y h h'
    cases y with
    | nil => simp [jsLtChars] at h'
    | cons b bs =>
      unfold jsLtChars at h h'
      by_cases hab : a.toNat < b.toNat
      · rw [if_pos hab] at h
        cases h
      · by_cases hba : b.toNat < a.toNat
        · rw [if_pos hba] at h'
          cases h'
        · rw [if_neg hab, if_neg hba] at h
          have hv : a.toNat = b.toNat := by omega
          have : a = b := Char.ext (UInt32.ext hv)
          subst this
          rw [if_neg hab, if_neg hab] at h'
          rw [ih bs h h']

theorem jsStrLt_asymm (a b : String) (h : jsStrLt a b = true) : jsStrLt b a = false :=
  jsLtChars_asymm _ _ h

theorem jsStrLt_conn (a b : String) (h : jsStrLt a b = false)
    (h' : jsStrLt b a = false) : a = b := by
  have := jsLtChars_conn a.data b.data h h'
  exact String.ext this

/-- `pairKey` is symmetric in its endpoints. -/

theorem pairKey_comm (a b : String) : pairKey a b = pairKey b a := by
  unfold pairKey
  by_cases hba : jsStrLt b a = true
  · rw [if_pos hba, if_neg (by rw [jsStrLt_asymm b a hba]; simp)]
  · have hba' : jsStrLt b a = false := by
      cases h : jsStrLt b a
      · rfl
      · exact absurd h hba
    rw [if_neg hba]
    by_cases hab : jsStrLt a b = true
    · rw [if_pos hab]
    · have hab' : jsStrLt a b = false := by
        cases h : jsStrLt a b
        · rfl
        · exact absurd h hab
      rw [if_neg hab, jsStrLt_conn a b hab' hba']

/-- Splitting at an underscore is unambiguous when neither left part
contains one. -/

theorem append_underscore_inj : ∀ (xs xs' ys ys' : List Char),
    '_' ∉ xs → '_' ∉ xs' → xs ++ '_' :: ys = xs' ++ '_' :: ys' →
    xs = xs' ∧ ys = ys' := by
  intro xs
  induction xs with
  | nil =>
    intro xs' ys ys' _ hx' h
    cases xs' with
    | nil => simpa using h
    | cons c cs =>
      simp only [List.nil_append, List.cons_append, List.cons.injEq] at h
      exact absurd (h.1 ▸ List.mem_cons_self _ _) hx'
  | cons c cs ih =>
    intro xs' ys ys' hx hx' h
    cases xs' with
    | nil =>
      simp only [List.nil_append, List.cons_append, List.cons.injEq] at h
      exact absurd (h.1.symm ▸ List.mem_cons_self _ _) hx
    | cons c' cs' =>
      simp only [List.cons_append, List.cons.injEq] at h
      obtain ⟨rfl, h2⟩ := h
      have := ih cs' ys ys' (fun hm => hx (List.mem_cons_of_mem _ hm))
        (fun hm => hx' (List.mem_cons_of_mem _ hm)) h2
      exact ⟨by rw [this.1], this.2⟩

/-- Underscore-joined concatenation is injective on underscore-free
strings. -/

theorem concatKey_inj (x y x' y' : String)
    (hx : noUnderscore x) (hx' : noUnderscore x')
    (h : x ++ "_" ++ y = x' ++ "_" ++ y') : x = x' ∧ y = y' := by
  have hd : x.data ++ '_' :: y.data = x'.data ++ '_' :: y'.data := by
    have := congrArg String.data h
    simpa [String.data_append] using this
  obtain ⟨h1, h2⟩ := append_underscore_inj x.data x'.data y.data y'.data hx hx' hd
  exact ⟨String.ext h1, String.ext h2⟩

/-- On underscore-free uuids, equal grouping keys mean equal unordered
node pairs (and conversely). -/

theorem pairKey_eq_iff (a b c d : String)
    (ha : noUnderscore a) (hb : noUnderscore b)
    (hc : noUnderscore c) (hd : noUnderscore d) :
    pairKey a b = pairKey c d ↔ ((a = c ∧ b = d) ∨ (a = d ∧ b = c)) := by
  constructor
  · intro h
    unfold pairKey at h
    by_cases h1 : jsStrLt b a = true
    · rw [if_pos h1] at h
      by_cases h2 : jsStrLt d c = true
      · rw [if_pos h2] at h
        obtain ⟨rfl, rfl⟩ := concatKey_inj b a d c hb hd h
        exact Or.inl ⟨rfl, rfl⟩
      · rw [if_neg h2] at h
        obtain ⟨rfl, rfl⟩ := concatKey_inj b a c d hb hc h
        exact Or.inr ⟨rfl, rfl⟩
    · rw [if_neg h1] at h
      by_cases h2 : jsStrLt d c = true
      · rw [if_pos h2] at h
        obtain ⟨rfl, rfl⟩ := concatKey_inj a b d c ha hd h
        exact Or.inr ⟨rfl, rfl⟩
      · rw [if_neg h2] at h
        obtain ⟨rfl, rfl⟩ := concatKey_inj a b c d ha hc h
        exact Or.inl ⟨rfl, rfl⟩
  · rintro (⟨rfl, rfl⟩ | ⟨rfl, rfl⟩)
    · rfl
    · exact pairKey_comm a b

/-- Pass 2 restricted to non-self-loop output equals the prefix-counting
recursion, provided the running index map counts the processed prefix. -/
theorem renderAux_pairs (cnt : String → Nat) (loops : String → List SLRec)
    (findName : String → Option String) :
    ∀ (rest : List GEdge) (idx : String → Nat) (processed : String → Bool)
      (pre : List GEdge),
      (∀ key, idx key = countKey key pre) →
      (renderEdgesAux cnt loops findName idx processed rest).filter
          (fun r => !r.isSelfLoop) =
        pairSpecList findName cnt pre rest := by
  intro rest
  induction rest with
  | nil =>
    intro idx processed pre _
    simp [renderEdgesAux, pairSpecList]
  | cons e rest ih =>
    intro idx processed pre hidx
    unfold renderEdgesAux pairSpecList
    by_cases hself : e.source_node_uuid = e.target_node_uuid
    · rw [if_pos hself, if_pos hself]
      have hidx' : ∀ key, idx key = countKey key (pre ++ [e]) := by
        intro key
        unfold countKey
        rw [List.countP_append]
        have : List.countP (fun e' =>
            decide (e'.source_node_uuid ≠ e'.target_node_uuid ∧ pairKeyOf e' = key)) [e] = 0 := by
          simp [hself]
        rw [this, Nat.add_zero]
        exact hidx key
      by_cases hproc : processed e.source_node_uuid
      · rw [if_pos hproc]
        exact ih idx processed (pre ++ [e]) hidx'
      · rw [if_neg hproc, List.filter_cons]
        rw [if_neg (by simp [selfREdge])]
        exact ih idx _ (pre ++ [e]) hidx'
    · rw [if_neg hself, if_neg hself, List.filter_cons]
      rw [if_pos (by simp [pairREdge])]
      rw [hidx (pairKeyOf e)]
      congr 1
      apply ih
      intro key
      by_cases hkey : key = pairKeyOf e
      · subst hkey
        have h1 : countKey (pairKeyOf e) (pre ++ [e]) =
            countKey (pairKeyOf e) pre + 1 := by
          unfold countKey
          rw [List.countP_append]
          simp [hself]
        rw [if_pos rfl, h1]
      · have hne : pairKeyOf e ≠ key := fun h => hkey h.symm
        have h0 : countKey key (pre ++ [e]) = countKey key pre := by
          unfold countKey
          rw [List.countP_append]
          simp [hne]
        rw [if_neg hkey, h0]
        exact hidx key

/-- Unfolding equation of `pairSpecList` on a cons cell. -/
theorem pairSpecList_cons (findName : String → Option String) (cnt : String → Nat)
    (pre : List GEdge) (e : GEdge) (rest : List GEdge) :
    pairSpecList findName cnt pre (e :: rest) =
      if e.source_node_uuid = e.target_node_uuid then
        pairSpecList findName cnt (pre ++ [e]) rest
      else
        pairREdge findName e (countKey (pairKeyOf e) pre) (cnt (pairKeyOf e)) ::
          pairSpecList findName cnt (pre ++ [e]) rest := rfl

theorem pairSpecList_append (findName : String → Option String) (cnt : String → Nat) :
    ∀ (l1 l2 pre : List GEdge),
      pairSpecList findName cnt pre (l1 ++ l2) =
        pairSpecList findName cnt pre l1 ++ pairSpecList findName cnt (pre ++ l1) l2 := by
  intro l1
  induction l1 with
  | nil => intro l2 pre; simp [pairSpecList]
  | cons e t ih =>
    intro l2 pre
    rw [List.cons_append, pairSpecList_cons, pairSpecList_cons]
    by_cases hself : e.source_node_uuid = e.target_node_uuid
    · rw [if_pos hself, if_pos hself, ih]
      rw [List.append_assoc, List.singleton_append]
    · rw [if_neg hself, if_neg hself, ih]
      rw [List.append_assoc, List.singleton_append, List.cons_append]

theorem pairSpecList_length (findName : String → Option String) (cnt : String → Nat) :
    ∀ (l pre : List GEdge),
      (pairSpecList findName cnt pre l).length =
        l.countP (fun e => decide (e.source_node_uuid ≠ e.target_node_uuid)) := by
  intro l
  induction l with
  | nil => intro pre; simp [pairSpecList]
  | cons e t ih =>
    intro pre
    rw [pairSpecList_cons, List.countP_cons]
    by_cases hself : e.source_node_uuid = e.target_node_uuid
    · rw [if_pos hself, ih]
      have : decide (e.source_node_uuid ≠ e.target_node_uuid) = false := by
        simp [hself]
      rw [this]
      simp
    · rw [if_neg hself, List.length_cons, ih]
      have : decide (e.source_node_uuid ≠ e.target_node_uuid) = true := by
        simp [hself]
      rw [this]
      simp

/-- On underscore-free uuids the grouping-key count agrees with the
unordered-node-pair group size of the specification. -/
theorem countKey_eq_specGroupSize (l : List GEdge) (e : GEdge)
    (hU : ∀ e' ∈ l, noUnderscore e'.source_node_uuid ∧ noUnderscore e'.target_node_uuid)
    (he : noUnderscore e.source_node_uuid ∧ noUnderscore e.target_node_uuid) :
    countKey (pairKeyOf e) l = specGroupSize l e := by
  unfold countKey specGroupSize
  apply List.countP_congr
  intro e' he'
  dsimp only
  have h' := hU e' he'
  have hiff : (pairKeyOf e' = pairKeyOf e) ↔ sameUnorderedPair e' e := by
    unfold pairKeyOf sameUnorderedPair
    exact pairKey_eq_iff _ _ _ _ h'.1 h'.2 he.1 he.2
  by_cases hs : e'.source_node_uuid = e'.target_node_uuid
  · have h2 : decide (e'.source_node_uuid ≠ e'.target_node_uuid ∧
        pairKeyOf e' = pairKeyOf e) = false := by simp [hs]
    have h3 : decide (e'.source_node_uuid ≠ e'.target_node_uuid ∧
        sameUnorderedPair e' e) = false := by simp [hs]
    rw [h2, h3]
  · simp only [decide_eq_true_eq]
    constructor
    · rintro ⟨h1, h2⟩; exact ⟨h1, hiff.mp h2⟩
    · rintro ⟨h1, h2⟩; exact ⟨h1, hiff.mpr h2⟩

/-- The curvature the code computes equals the amended claim formula. -/
theorem pairREdge_curvature (findName : String → Option String) (e : GEdge)
    (i k : Nat) (hk : 1 ≤ k) :
    (pairREdge findName e i k).curvature =
      claimCurvature i k e.source_node_uuid e.target_node_uuid := by
  unfold pairREdge claimCurvature
  dsimp only
  by_cases h1 : 1 < k
  · have hk1 : ¬ (k = 1) := by omega
    rw [if_pos h1, if_neg hk1]
    by_cases hrev : jsStrLt e.target_node_uuid e.source_node_uuid = true
    · rw [if_pos hrev, if_pos hrev]
      ring
    · rw [if_neg hrev, if_neg hrev]
      ring
  · have hk1 : k = 1 := by omega
    subst hk1
    rw [if_neg (by omega), if_pos rfl]

/-- C1 (amended): decompose the dangling-filtered snapshot as
`pre ++ e :: post` with `e` not a self-loop; with `i` the number of edges
of `e`'s unordered node pair among `pre` (arrival-order index) and `k`
that number in the whole snapshot, the rendered edge corresponding to `e`
carries curvature `((i/(k−1)) − 0.5) × min(1.2, 0.6 + 0.15·k) × 2`,
negated exactly when the record's source uuid is lexicographically
greater than its target uuid; a group of size `k = 1` gets curvature 0
(all folded into `claimCurvature`).  Uuids are assumed underscore-free so
that the code's string grouping key coincides with unordered node
pairs. -/
theorem C1_pair_curvature (nodes : List GNode) (edgesData : List GEdge)
    (pre : List GEdge) (e : GEdge) (post : List GEdge)
    (hU : ∀ e' ∈ edgesData,
      noUnderscore e'.source_node_uuid ∧ noUnderscore e'.target_node_uuid)
    (htemp : tempEdgesOf nodes edgesData = pre ++ e :: post)
    (hns : e.source_node_uuid ≠ e.target_node_uuid) :
    ∃ r, ((renderGraphEdges nodes edgesData).filter (fun r => !r.isSelfLoop))[
          pre.countP (fun e' =>
            decide (e'.source_node_uuid ≠ e'.target_node_uuid))]? = some r ∧
      r.source = e.source_node_uuid ∧ r.target = e.target_node_uuid ∧
      r.pairIndex = some (specGroupSize pre e) ∧
      r.pairTotal = some (specGroupSize (tempEdgesOf nodes edgesData) e) ∧
      r.curvature = claimCurvature (specGroupSize pre e)
        (specGroupSize (tempEdgesOf nodes edgesData) e)
        e.source_node_uuid e.target_node_uuid := by
  have hsub : List.Sublist (tempEdgesOf nodes edgesData) edgesData := by
    unfold tempEdgesOf
    exact List.filter_sublist _
  have hUtemp : ∀ e' ∈ tempEdgesOf nodes edgesData,
      noUnderscore e'.source_node_uuid ∧ noUnderscore e'.target_node_uuid :=
    fun e' h => hU e' (hsub.subset h)
  have hUfull : ∀ e' ∈ pre ++ e :: post,
      noUnderscore e'.source_node_uuid ∧ noUnderscore e'.target_node_uuid := by
    rw [← htemp]; exact hUtemp
  have hUpre : ∀ e' ∈ pre,
      noUnderscore e'.source_node_uuid ∧ noUnderscore e'.target_node_uuid :=
    fun e' h => hUfull e' (List.mem_append_left _ h)
  have he' : noUnderscore e.source_node_uuid ∧ noUnderscore e.target_node_uuid :=
    hUfull e (List.mem_append_right _ (List.mem_cons_self _ _))
  have hc1 : countKey (pairKeyOf e) pre = specGroupSize pre e :=
    countKey_eq_specGroupSize pre e hUpre he'
  have hc2 : countKey (pairKeyOf e) (pre ++ e :: post) =
      specGroupSize (pre ++ e :: post) e :=
    countKey_eq_specGroupSize _ e hUfull he'
  have hk1 : 1 ≤ specGroupSize (pre ++ e :: post) e := by
    unfold specGroupSize
    rw [List.countP_append, List.countP_cons]
    have : decide (e.source_node_uuid ≠ e.target_node_uuid ∧
        sameUnorderedPair e e) = true := by
      simp [hns, sameUnorderedPair]
    rw [this]
    simp
    omega
  rw [htemp]
  unfold renderGraphEdges
  rw [renderAux_pairs _ _ _ _ _ _ [] (by intro key; simp [countKey])]
  rw [htemp, pairSpecList_append, pairSpecList_cons, if_neg hns]
  have hlen : (pairSpecList (findNodeName nodes)
      (fun key => countKey key (pre ++ e :: post)) [] pre).length =
      pre.countP (fun e' =>
        decide (e'.source_node_uuid ≠ e'.target_node_uuid)) :=
    pairSpecList_length _ _ pre []
  rw [List.getElem?_append_right (le_of_eq hlen)]
  have hidx0 : List.countP (fun e' =>
      decide (e'.source_node_uuid ≠ e'.target_node_uuid)) pre -
      (pairSpecList (findNodeName nodes)
        (fun key => countKey key (pre ++ e :: post)) [] pre).length = 0 := by
    rw [hlen]
    exact Nat.sub_self _
  rw [hidx0, List.getElem?_cons_zero]
  simp only [List.nil_append]
  refine ⟨_, rfl, rfl, rfl, ?_, ?_, ?_⟩
  · show some (countKey (pairKeyOf e) pre) = some (specGroupSize pre e)
    exact congrArg some hc1
  · show some (countKey (pairKeyOf e) (pre ++ e :: post)) =
      some (specGroupSize (pre ++ e :: post) e)
    exact congrArg some hc2
  · rw [hc1, hc2]
    exact pairREdge_curvature _ e _ _ hk1

/-- C1 counterexample: two parallel edges between `a` and `b`.  The code
assigns the first edge curvature −9/10, but the claim's formula (without
the ×2 factor) yields ((0/(2−1)) − 0.5) × min(1.2, 0.6 + 0.15·2) = −9/20,
a different value — refuting the claim as stated. -/
theorem C1_counterexample :
    (renderGraphEdges [⟨"a", "A"⟩, ⟨"b", "B"⟩]
        [⟨"e1", "a", "b", "knows", "REL"⟩, ⟨"e2", "a", "b", "likes", "REL"⟩]).map
        REdge.curvature = [-(9/10), 9/10] ∧
    ¬ ((-(9/10) : ℚ) =
      ((0 : ℚ) / (2 - 1) - 5/10) * min (12/10) (6/10 + 2 * (15/100))) := by
  constructor
  · have h : renderGraphEdges [⟨"a", "A"⟩, ⟨"b", "B"⟩]
        [⟨"e1", "a", "b", "knows", "REL"⟩, ⟨"e2", "a", "b", "likes", "REL"⟩] =
        [pairREdge (findNodeName [⟨"a", "A"⟩, ⟨"b", "B"⟩]) ⟨"e1", "a", "b", "knows", "REL"⟩ 0 2,
         pairREdge (findNodeName [⟨"a", "A"⟩, ⟨"b", "B"⟩]) ⟨"e2", "a", "b", "likes", "REL"⟩ 1 2] := rfl
    rw [h]
    have hrev : jsStrLt "b" "a" = false := by decide
    simp only [List.map, pairREdge, hrev]
    norm_num
  · norm_num

/-- C1 witness: the middle record of a 3-edge group, stored in reversed
direction, gets the amended-formula curvature. -/
theorem C1_witness :
    ∃ r, ((renderGraphEdges [⟨"a", "A"⟩, ⟨"b", "B"⟩]
          [⟨"e1", "a", "b", "knows", "REL"⟩, ⟨"e2", "b", "a", "likes", "REL"⟩,
           ⟨"e3", "a", "b", "mentions", "REL"⟩]).filter (fun r => !r.isSelfLoop))[
        List.countP (fun e' =>
          decide (e'.source_node_uuid ≠ e'.target_node_uuid))
          [(⟨"e1", "a", "b", "knows", "REL"⟩ : GEdge)]]? = some r ∧
      r.source = "b" ∧ r.target = "a" ∧
      r.pairIndex = some (specGroupSize [⟨"e1", "a", "b", "knows", "REL"⟩]
        ⟨"e2", "b", "a", "likes", "REL"⟩) ∧
      r.pairTotal = some (specGroupSize (tempEdgesOf [⟨"a", "A"⟩, ⟨"b", "B"⟩]
        [⟨"e1", "a", "b", "knows", "REL"⟩, ⟨"e2", "b", "a", "likes", "REL"⟩,
         ⟨"e3", "a", "b", "mentions", "REL"⟩]) ⟨"e2", "b", "a", "likes", "REL"⟩) ∧
      r.curvature = claimCurvature
        (specGroupSize [⟨"e1", "a", "b", "knows", "REL"⟩] ⟨"e2", "b", "a", "likes", "REL"⟩)
        (specGroupSize (tempEdgesOf [⟨"a", "A"⟩, ⟨"b", "B"⟩]
          [⟨"e1", "a", "b", "knows", "REL"⟩, ⟨"e2", "b", "a", "likes", "REL"⟩,
           ⟨"e3", "a", "b", "mentions", "REL"⟩]) ⟨"e2", "b", "a", "likes", "REL"⟩)
        "b" "a" :=
  C1_pair_curvature [⟨"a", "A"⟩, ⟨"b", "B"⟩]
    [⟨"e1", "a", "b", "knows", "REL"⟩, ⟨"e2", "b", "a", "likes", "REL"⟩,
     ⟨"e3", "a", "b", "mentions", "REL"⟩]
    [⟨"e1", "a", "b", "knows", "REL"⟩] ⟨"e2", "b", "a", "likes", "REL"⟩
    [⟨"e3", "a", "b", "mentions", "REL"⟩]
    (by decide) (by decide) (by decide)


/-! ## C4: phase monotonicity -/

set_option maxHeartbeats 1000000 in
/-- The realtime profile poll never touches the phase. -/
theorem fetchProfiles_phase (ctx : PrepCtx) (s : PrepState)
    (r : Except String (Envelope ProfData)) :
    (fetchProfilesRealtimeStep ctx s r).phase = s.phase := by
  unfold fetchProfilesRealtimeStep
  repeat' (first | split | dsimp only)

set_option maxHeartbeats 1000000 in
/-- The realtime config poll leaves the phase alone or sets it to 4. -/
theorem fetchConfig_phase (ctx : PrepCtx) (s : PrepState)
    (r : Except String (Envelope ConfData)) :
    (fetchConfigRealtimeStep ctx s r).phase = s.phase ∨
      (fetchConfigRealtimeStep ctx s r).phase = 4 := by
  unfold fetchConfigRealtimeStep
  repeat' (first | split | dsimp only)
  all_goals first | exact Or.inl rfl | exact Or.inr rfl

set_option maxHeartbeats 1000000 in
/-- The terminal-state reload leaves the phase at 2 or 4. -/
theorem loadPreparedData_phase (ctx : PrepCtx) (s : PrepState)
    (profO : Except String (Envelope ProfData))
    (confO : Except String (Envelope ConfData)) :
    (loadPreparedDataStep ctx s profO confO).phase = 2 ∨
      (loadPreparedDataStep ctx s profO confO).phase = 4 := by
  unfold loadPreparedDataStep
  repeat' (first | split | dsimp only)
  all_goals simp [fetchProfiles_phase]

/-- The stage watch sets the phase to the stage mapping, when defined. -/
theorem applyStageWatch_phase (st : String) (s : PrepState) :
    (applyStageWatch st s).phase = (stagePhase? st).getD s.phase := by
  unfold applyStageWatch stagePhase?
  split_ifs
  all_goals first | rfl | (dsimp only; split <;> rfl)

set_option maxHeartbeats 1000000 in
/-- A non-restart run-panel step never decreases the phase and keeps it
within the panel range. -/
theorem runStep_phase (ctx : RunCtx) (s : RunState) (e : RunEvent)
    (h2 : s.phase ≤ 2) (hre : isRestartEvent e = false) :
    s.phase ≤ (runStep ctx s e).phase ∧ (runStep ctx s e).phase ≤ 2 := by
  cases e with
  | startSim r => simp [isRestartEvent] at hre
  | stopSim r =>
    unfold runStep handleStopSimulationStep
    repeat' (first | split | dsimp only)
    all_goals simp_all
  | statusPoll r =>
    unfold runStep fetchRunStatusStep
    repeat' (first | split | dsimp only)
    all_goals simp_all
  | detailPoll r =>
    unfold runStep fetchRunStatusDetailStep
    repeat' (first | split | dsimp only)
    all_goals simp_all

/-- Phase observations along a restart-free run-panel trace form an
ascending chain. -/
theorem runTrace_chain (ctx : RunCtx) :
    ∀ (evs : List RunEvent) (s : RunState), s.phase ≤ 2 →
      (∀ e ∈ evs, isRestartEvent e = false) →
      List.Chain' (· ≤ ·) ((List.scanl (runStep ctx) s evs).map (·.phase)) := by
  intro evs
  induction evs with
  | nil => intro s _ _; simp
  | cons e t ih =>
    intro s h2 hre
    rw [List.scanl_cons, List.singleton_append, List.map_cons, List.chain'_cons']
    obtain ⟨hmono, hle⟩ := runStep_phase ctx s e h2 (hre e (List.mem_cons_self _ _))
    constructor
    · intro b hb
      have hhead : ((List.scanl (runStep ctx) (runStep ctx s e) t).map (·.phase)).head? =
          some (runStep ctx s e).phase := by
        rw [List.head?_map]
        cases t <;> simp [List.scanl]
      rw [hhead] at hb
      cases hb
      exact hmono
    · exact ih (runStep ctx s e) hle (fun e' h' => hre e' (List.mem_cons_of_mem _ h'))

set_option maxHeartbeats 1000000 in
/-- The progress/stage/log section never touches the phase. -/
theorem prepApplyDetail_phase (s : PrepState) (data : PrepData) :
    (prepApplyDetail s data).phase = s.phase := by
  unfold prepApplyDetail
  repeat' (first | split | dsimp only)

set_option maxHeartbeats 1000000 in
/-- The stage installed by the progress section is `newStageOf`. -/
theorem prepApplyDetail_stage (s : PrepState) (data : PrepData) :
    (prepApplyDetail s data).currentStage = newStageOf s data := by
  unfold prepApplyDetail newStageOf
  repeat' (first | split | dsimp only)
  all_goals simp_all

set_option maxHeartbeats 2000000 in
/-- A preparation-panel step that is not the mount-time start, does not
trigger the terminal-state reload, and is stage-safe never decreases the
phase. -/
theorem prepStep_mono (ctx : PrepCtx) (s : PrepState) (e : PrepEvent)
    (h4 : s.phase ≤ 4) (hm : isMountEvent e = false)
    (hr : triggersReload e = false) (hs : stageSafe s e) :
    s.phase ≤ (prepStep ctx s e).phase := by
  cases e with
  | mountStart r p c => simp [isMountEvent] at hm
  | pollProfiles r =>
    simp only [prepStep]
    split
    · rw [fetchProfiles_phase]
    · exact le_refl _
  | pollConfig r =>
    simp only [prepStep]
    split
    · rcases fetchConfig_phase ctx s r with h | h <;> omega
    · exact le_refl _
  | pollPrepare r p c =>
    simp only [prepStep]
    split
    case isFalse => exact le_refl _
    case isTrue hpoll =>
      unfold pollPrepareStatusStep
      split
      · exact le_refl _
      · cases r with
        | error msg => exact le_refl _
        | ok res =>
          dsimp only
          split
          case isFalse => exact le_refl _
          case isTrue hsucc =>
            split
            case h_2 => exact le_refl _
            case h_1 data hdata =>
              have hnotdone : ¬ (data.status = some "completed" ∨
                  data.status = some "ready" ∨ data.already_prepared = true) := by
                simp only [triggersReload, hsucc, hdata, Bool.true_and] at hr
                simpa using hr
              have hw : s.phase ≤ (if (prepApplyDetail s data).currentStage ≠
                  s.currentStage then
                    applyStageWatch (prepApplyDetail s data).currentStage
                      (prepApplyDetail s data)
                  else prepApplyDetail s data).phase := by
                split
                · rw [applyStageWatch_phase, prepApplyDetail_stage]
                  cases hsp : stagePhase? (newStageOf s data) with
                  | none => simp [prepApplyDetail_phase]
                  | some pp =>
                    simp only [Option.getD_some]
                    exact hs data hsucc hdata pp hsp
                · rw [prepApplyDetail_phase]
              rw [if_neg hnotdone]
              split
              · exact hw
              · exact hw

/-- C4 counterexample: a realistic restart-free preparation trace — start,
a `generating_config` stage report (phase 2), the realtime config poll
observing the generated config (phase 4), then the prepare status
reporting `completed` whose reload re-enters the loading state while its
nested config fetch throws — observes phases `[0, 1, 2, 4, 2]`: the phase
decreases from 4 to 2 with no restart anywhere (the preparation panel has
no reset path at all), refuting the claim as stated. -/
theorem C4_counterexample :
    ((prepTrace ⟨some "sim-1"⟩
      [.mountStart (.ok ⟨true, some
          { already_prepared := false, task_id := some "t1",
            expected_entities_count := some 8, entity_types := [] }, none⟩)
          (.error "net") (.error "net"),
       .pollPrepare (.ok ⟨true, some
          { progress := some 10, message := none,
            progress_detail := some
              { stage_index := 2, total_stages := 3,
                current_stage_name := some "generating_config",
                current_stage := some "generating_config",
                item_description := none, current_item := 0, total_items := 0 },
            status := some "running", error := none, already_prepared := false }, none⟩)
          (.error "net") (.error "net"),
       .pollConfig (.ok ⟨true, some
          { generation_stage := none, config_generated := true,
            config := some { time_config := none, event_config := none },
            summary := none }, none⟩),
       .pollPrepare (.ok ⟨true, some
          { progress := some 100, message := none, progress_detail := none,
            status := some "completed", error := none, already_prepared := false }, none⟩)
          (.error "boom") (.error "boom")]).map (·.phase) = [0, 1, 2, 4, 2]) ∧
    ¬ List.Pairwise (· ≤ ·)
      ((prepTrace ⟨some "sim-1"⟩
        [.mountStart (.ok ⟨true, some
            { already_prepared := false, task_id := some "t1",
              expected_entities_count := some 8, entity_types := [] }, none⟩)
            (.error "net") (.error "net"),
         .pollPrepare (.ok ⟨true, some
            { progress := some 10, message := none,
              progress_detail := some
                { stage_index := 2, total_stages := 3,
                  current_stage_name := some "generating_config",
                  current_stage := some "generating_config",
                  item_description := none, current_item := 0, total_items := 0 },
              status := some "running", error := none, already_prepared := false }, none⟩)
            (.error "net") (.error "net"),
         .pollConfig (.ok ⟨true, some
            { generation_stage := none, config_generated := true,
              config := some { time_config := none, event_config := none },
              summary := none }, none⟩),
         .pollPrepare (.ok ⟨true, some
            { progress := some 100, message := none, progress_detail := none,
              status := some "completed", error := none, already_prepared := false }, none⟩)
            (.error "boom") (.error "boom")]).map (·.phase)) := by
  constructor
  · rfl
  · decide

/-- C4 (amended): in the run panel, absent the explicit restart
(`doStartSimulation` begins with `resetAllState`), the phase observed at
any later point of a trace is never less than at any earlier point; in
the preparation panel the same holds per step except on the mount-time
start, on prepare-status responses that trigger the terminal-state
reload (`loadPreparedData` re-enters the loading state, phase 2), and on
responses whose reported stage maps to a lower phase via the
`watch(currentStage)` table. -/
theorem C4_phase_monotonicity :
    (∀ (ctx : RunCtx) (evs : List RunEvent),
      (∀ e ∈ evs, isRestartEvent e = false) →
      List.Pairwise (· ≤ ·) ((runTrace ctx evs).map (·.phase))) ∧
    (∀ (ctx : PrepCtx) (s : PrepState) (e : PrepEvent),
      s.phase ≤ 4 → isMountEvent e = false → triggersReload e = false →
      stageSafe s e → s.phase ≤ (prepStep ctx s e).phase) := by
  constructor
  · intro ctx evs h
    have hc := runTrace_chain ctx evs runInit (by decide) h
    exact List.chain'_iff_pairwise.mp hc
  · intro ctx s e h4 hm hr hs
    exact prepStep_mono ctx s e h4 hm hr hs

/-- C4 witness: a restart-free run-panel trace has ascending phases, and
a preparation-panel step (a thrown config poll) does not decrease the
phase. -/
theorem C4_witness :
    List.Pairwise (· ≤ ·) ((runTrace ⟨some "sim-1", none⟩
      [.stopSim (.ok ⟨true, none, none⟩)]).map (·.phase)) ∧
    prepInit.phase ≤ (prepStep ⟨some "sim-1"⟩ prepInit
      (.pollConfig (.error "net"))).phase :=
  ⟨C4_phase_monotonicity.1 ⟨some "sim-1", none⟩ _ (by decide),
   C4_phase_monotonicity.2 ⟨some "sim-1"⟩ prepInit _ (by decide) (by decide)
     (by decide) trivial⟩

end Fishi
